import Mathlib

/-!
# ShaderMap 4.3 SDK: example plugins and plugin cores

A shallow embedding of the helper functions, the `plugin_initialize` slot
tables and the `on_process` callbacks of the SDK's example plugins, followed
by the theorems that settle the claims of the specification.

Conventions of the embedding:

* `float` / `half` values are read over an ordered field `α` (the rationals
  when a definition is evaluated, the reals in the theorems that say so);
  rounding is not modelled.
* `unsigned int` is `Nat` with an explicit `% 2 ^ 32` where the C code can
  wrap; `unsigned short` mask pixels are `Nat` values.
* `new (std::nothrow)` either yields storage or a null pointer: every
  allocation site takes a `Bool` saying whether it succeeds, and every
  `on_process` records the outcome of each allocation it attempts, in order,
  in the field `allocations` of its result.
* A `std::vector` operation that needs storage (`push_back`, `resize`)
  either obtains it or throws `std::bad_alloc`; no `on_process` handles an
  exception, so the run ends there, recorded in the field `bad_alloc` of the
  result of geo_custom (the only plugin that uses `std::vector`).
* Calls into the host are recorded, in order, in a list of call records; the
  answers of the host are inputs of the model.
-/

set_option autoImplicit false
-- `thread_limit` is assigned and never read in the sources; the embedding keeps it.
set_option linter.unusedVariables false

namespace ShaderMap

/-! ## Numeric helpers -/

/-- Wrap a natural number to the range of a 32-bit `unsigned int`. -/
def u32 (n : Nat) : Nat := n % 2 ^ 32

/-- Value of the C constant `USHRT_MAX`. -/
def USHRT_MAX : Nat := 65535

/-- A 3 element vector (`struct vector_3_s`). -/
structure vector_3_s (α : Type) where
  x : α
  y : α
  z : α
deriving DecidableEq, Repr

namespace filter_rgba

/-- Clamp float to range 0.0f to 1.0f (`clamp_f`, filter_rgba.cpp:483). -/
def clamp_f {α : Type} [LinearOrderedField α] (v : α) : α :=
  if v < 0 then 0
  else if v > 1 then 1
  else v

end filter_rgba

namespace map_color_to_ts_normal

/-- Normalize the parameter vector (`normalize_vector`,
map_color_to_ts_normal.cpp:541).  The in/out reference parameter becomes the
returned vector; `sqrtf` is the square-root function of the field. -/
def normalize_vector {α : Type} [LinearOrderedField α] (sqrtf : α → α)
    (normal_in_out : vector_3_s α) : vector_3_s α :=
  let t := sqrtf (normal_in_out.x * normal_in_out.x +
                  normal_in_out.y * normal_in_out.y +
                  normal_in_out.z * normal_in_out.z)
  if t > 0 then
    { x := normal_in_out.x / t, y := normal_in_out.y / t, z := normal_in_out.z / t }
  else
    { x := 0, y := 0, z := 0 }

end map_color_to_ts_normal

namespace source_ts_normal

/-- Normalize the parameter vector (`normalize_vector`,
source_ts_normal.cpp:475), the second copy of the helper. -/
def normalize_vector {α : Type} [LinearOrderedField α] (sqrtf : α → α)
    (normal_in_out : vector_3_s α) : vector_3_s α :=
  let t := sqrtf (normal_in_out.x * normal_in_out.x +
                  normal_in_out.y * normal_in_out.y +
                  normal_in_out.z * normal_in_out.z)
  if t > 0 then
    { x := normal_in_out.x / t, y := normal_in_out.y / t, z := normal_in_out.z / t }
  else
    { x := 0, y := 0, z := 0 }

end source_ts_normal

/-- Euclidean length of a 3-vector, for the square-root function `sqrtf`. -/
def vector_length {α : Type} [LinearOrderedField α] (sqrtf : α → α) (v : vector_3_s α) : α :=
  sqrtf (v.x * v.x + v.y * v.y + v.z * v.z)

/-- Squared Euclidean length of a 3-vector. -/
def vector_length_sq {α : Type} [LinearOrderedField α] (v : vector_3_s α) : α :=
  v.x ^ 2 + v.y ^ 2 + v.z ^ 2

/-- Over the reals, a copy of `normalize_vector` written as a function `f`
meets the normalisation contract at `v`. -/
def normalizes (f : vector_3_s ℝ → vector_3_s ℝ) (v : vector_3_s ℝ) : Prop :=
  (vector_length Real.sqrt v = 0 → f v = { x := 0, y := 0, z := 0 }) ∧
  (vector_length Real.sqrt v ≠ 0 →
    f v = { x := v.x / vector_length Real.sqrt v,
            y := v.y / vector_length Real.sqrt v,
            z := v.z / vector_length Real.sqrt v } ∧
    vector_length_sq (f v) = 1)

/-! ## Nearest neighbour mask resize -/

/-- Inner loop of `resize_mask_pixels`, `for(i=0; i<new_width; i++)`: the
pixel at column `x >> 16` of the source line is stored and `x` advances by
`x_delta` (an `unsigned int`, so the sum wraps).  The first argument counts
the remaining iterations. -/
def resize_line (source_line : Nat → Nat) (x_delta : Nat) : Nat → Nat → List Nat
  | 0, _ => []
  | n + 1, x => source_line (x >>> 16) :: resize_line source_line x_delta n (u32 (x + x_delta))

/-- Outer loop of `resize_mask_pixels`, `for(j=0; j<new_height; j++)`: the
source line starts at element `(y >> 16) * mask_width` (an `unsigned int`
product) of the mask, one line of `new_width` pixels is produced from `x = 0`,
and `y` advances by `y_delta`.  Reading past the end of the mask is undefined
in C and yields 0 here. -/
def resize_lines (mask_pixel_array : List Nat) (mask_width new_width x_delta y_delta : Nat) :
    Nat → Nat → List Nat
  | 0, _ => []
  | n + 1, y =>
    resize_line (fun k => mask_pixel_array.getD (u32 ((y >>> 16) * mask_width) + k) 0)
        x_delta new_width 0
      ++ resize_lines mask_pixel_array mask_width new_width x_delta y_delta n (u32 (y + y_delta))

namespace filter_rgba

/-- Resize the mask pixels using nearest neighbor scaling
(`resize_mask_pixels`, filter_rgba.cpp:495).  `alloc_ok` says whether
`new (std::nothrow) unsigned short[new_width * new_height]` succeeds; the
result `none` is the null pointer.  The early exit returns the array it was
given.  A zero `new_width` or `new_height` divides by zero in C; the
definition then follows the convention `n / 0 = 0`. -/
def resize_mask_pixels (alloc_ok : Bool) (mask_pixel_array : List Nat)
    (mask_width mask_height new_width new_height : Nat) : Option (List Nat) :=
  if mask_width = new_width ∧ mask_height ≠ new_height then
    some mask_pixel_array
  else if !alloc_ok then
    none
  else
    let x_delta := u32 (mask_width <<< 16) / new_width
    let y_delta := u32 (mask_height <<< 16) / new_height
    some (resize_lines mask_pixel_array mask_width new_width x_delta y_delta new_height 0)

/-- The allocations one call of `resize_mask_pixels` attempts, with their
outcome: none on the early exit, otherwise the one `new (std::nothrow)` of
filter_rgba.cpp:509. -/
def resize_mask_pixels_allocations (alloc_ok : Bool)
    (mask_width mask_height new_width new_height : Nat) : List Bool :=
  if mask_width = new_width ∧ mask_height ≠ new_height then [] else [alloc_ok]

end filter_rgba

namespace map_color_to_ts_normal

/-- Resize the mask pixels using nearest neighbor scaling
(`resize_mask_pixels`, map_color_to_ts_normal.cpp:555), the second copy of
the helper; same conventions as the copy in filter_rgba. -/
def resize_mask_pixels (alloc_ok : Bool) (mask_pixel_array : List Nat)
    (mask_width mask_height new_width new_height : Nat) : Option (List Nat) :=
  if mask_width = new_width ∧ mask_height ≠ new_height then
    some mask_pixel_array
  else if !alloc_ok then
    none
  else
    let x_delta := u32 (mask_width <<< 16) / new_width
    let y_delta := u32 (mask_height <<< 16) / new_height
    some (resize_lines mask_pixel_array mask_width new_width x_delta y_delta new_height 0)

/-- The allocations one call of `resize_mask_pixels` attempts, with their
outcome: none on the early exit, otherwise the one `new (std::nothrow)` of
map_color_to_ts_normal.cpp:569. -/
def resize_mask_pixels_allocations (alloc_ok : Bool)
    (mask_width mask_height new_width new_height : Nat) : List Bool :=
  if mask_width = new_width ∧ mask_height ≠ new_height then [] else [alloc_ok]

end map_color_to_ts_normal

/-! ## Plugin cores: the slot tables of `plugin_initialize`

The host array `function_pointer_array` is a function from slot numbers to
pointers of an arbitrary type `α`.  `plugin_initialize` ends with
`return on_initialize();`, which is plugin code and is not part of the table. -/

namespace filter_plugin_core

/-- The function pointers of the filter plugin core: one field per global
function pointer that `plugin_initialize` stores. -/
structure filter_api (α : Type) where
  fp_begin_initialize : α
  fp_end_initialize : α
  fp_define_translation_file : α
  fp_get_trans_string : α
  fp_define_help_file : α
  fp_set_plugin_info : α
  fp_get_option_default_coord_sys : α
  fp_add_property_pagelist : α
  fp_add_property_file : α
  fp_add_property_checkbox : α
  fp_add_property_list : α
  fp_add_property_numberbox_int : α
  fp_add_property_numberbox_float : α
  fp_add_property_colorbox : α
  fp_add_property_slider : α
  fp_add_property_range_slider : α
  fp_add_property_coordsys : α
  fp_get_property_pagelist : α
  fp_get_property_file : α
  fp_get_property_checkbox : α
  fp_get_property_list : α
  fp_get_property_numberbox_int : α
  fp_get_property_numberbox_float : α
  fp_get_property_colorbox : α
  fp_get_property_slider : α
  fp_get_property_range_slider : α
  fp_get_property_coordsys : α
  fp_set_property_checkbox : α
  fp_set_property_list : α
  fp_set_property_numberbox_int : α
  fp_set_property_numberbox_float : α
  fp_set_property_colorbox : α
  fp_set_property_slider : α
  fp_set_property_range_slider : α
  fp_set_property_coordsys : α
  fp_is_cancel_process : α
  fp_set_filter_progress : α
  fp_log_filter_error : α
  fp_get_map_thread_limit : α
  fp_get_map_mask : α

/-- Initialize the plugin with function pointers (`plugin_initialize`,
filter_plugin_core.cpp): every global is read from its slot of the host array.  The
result is the table of globals the plugin works with afterwards. -/
def plugin_initialize {α : Type} (function_pointer_array : Nat → α) : filter_api α where
  fp_begin_initialize := function_pointer_array 0
  fp_end_initialize := function_pointer_array 1
  fp_define_translation_file := function_pointer_array 2
  fp_get_trans_string := function_pointer_array 3
  fp_define_help_file := function_pointer_array 4
  fp_set_plugin_info := function_pointer_array 100
  fp_get_option_default_coord_sys := function_pointer_array 101
  fp_add_property_pagelist := function_pointer_array 200
  fp_add_property_file := function_pointer_array 201
  fp_add_property_checkbox := function_pointer_array 202
  fp_add_property_list := function_pointer_array 203
  fp_add_property_numberbox_int := function_pointer_array 204
  fp_add_property_numberbox_float := function_pointer_array 205
  fp_add_property_colorbox := function_pointer_array 206
  fp_add_property_slider := function_pointer_array 207
  fp_add_property_range_slider := function_pointer_array 208
  fp_add_property_coordsys := function_pointer_array 209
  fp_get_property_pagelist := function_pointer_array 300
  fp_get_property_file := function_pointer_array 301
  fp_get_property_checkbox := function_pointer_array 302
  fp_get_property_list := function_pointer_array 303
  fp_get_property_numberbox_int := function_pointer_array 304
  fp_get_property_numberbox_float := function_pointer_array 305
  fp_get_property_colorbox := function_pointer_array 306
  fp_get_property_slider := function_pointer_array 307
  fp_get_property_range_slider := function_pointer_array 308
  fp_get_property_coordsys := function_pointer_array 309
  fp_set_property_checkbox := function_pointer_array 310
  fp_set_property_list := function_pointer_array 311
  fp_set_property_numberbox_int := function_pointer_array 312
  fp_set_property_numberbox_float := function_pointer_array 313
  fp_set_property_colorbox := function_pointer_array 314
  fp_set_property_slider := function_pointer_array 315
  fp_set_property_range_slider := function_pointer_array 316
  fp_set_property_coordsys := function_pointer_array 317
  fp_is_cancel_process := function_pointer_array 400
  fp_set_filter_progress := function_pointer_array 401
  fp_log_filter_error := function_pointer_array 402
  fp_get_map_thread_limit := function_pointer_array 403
  fp_get_map_mask := function_pointer_array 404

end filter_plugin_core

namespace geo_plugin_core

/-- The function pointers of the geo plugin core: one field per global
function pointer that `plugin_initialize` stores. -/
structure geo_api (α : Type) where
  gp_begin_initialize : α
  gp_end_initialize : α
  gp_define_translation_file : α
  gp_get_trans_string : α
  gp_set_file_info : α
  gp_get_geometry_type : α
  gp_create_render_geometry : α
  gp_create_node_geometry : α
  gp_log_plugin_error : α
  gp_define_node_material_id : α
  gp_is_option_material_color_from_file : α
  gp_flag_no_uv_geometry : α

/-- Initialize the plugin with function pointers (`plugin_initialize`,
geo_plugin_core.cpp): every global is read from its slot of the host array.  The
result is the table of globals the plugin works with afterwards. -/
def plugin_initialize {α : Type} (function_pointer_array : Nat → α) : geo_api α where
  gp_begin_initialize := function_pointer_array 0
  gp_end_initialize := function_pointer_array 1
  gp_define_translation_file := function_pointer_array 2
  gp_get_trans_string := function_pointer_array 3
  gp_set_file_info := function_pointer_array 100
  gp_get_geometry_type := function_pointer_array 200
  gp_create_render_geometry := function_pointer_array 201
  gp_create_node_geometry := function_pointer_array 202
  gp_log_plugin_error := function_pointer_array 203
  gp_define_node_material_id := function_pointer_array 204
  gp_is_option_material_color_from_file := function_pointer_array 205
  gp_flag_no_uv_geometry := function_pointer_array 206

end geo_plugin_core

namespace map_plugin_core

/-- The function pointers of the map plugin core: one field per global
function pointer that `plugin_initialize` stores. -/
structure map_api (α : Type) where
  mp_begin_initialize : α
  mp_end_initialize : α
  mp_define_translation_file : α
  mp_get_trans_string : α
  mp_define_help_file : α
  mp_get_option_default_tile_type : α
  mp_get_option_default_coord_sys : α
  mp_get_option_udim_u_max : α
  mp_get_option_udim_postfix_format : α
  mp_add_input : α
  mp_setup_source_input_filter : α
  mp_set_plugin_info : α
  mp_add_property_pagelist : α
  mp_add_property_file : α
  mp_add_property_checkbox : α
  mp_add_property_list : α
  mp_add_property_numberbox_int : α
  mp_add_property_numberbox_float : α
  mp_add_property_colorbox : α
  mp_add_property_slider : α
  mp_add_property_range_slider : α
  mp_add_property_coordsys : α
  mp_get_source_width : α
  mp_get_source_height : α
  mp_is_source_grayscale : α
  mp_is_source_rasterized : α
  mp_is_source_sRGB : α
  mp_get_source_pixel_array : α
  mp_get_input_id : α
  mp_get_input_width : α
  mp_get_input_height : α
  mp_get_input_coordsys : α
  mp_get_input_tile_type : α
  mp_is_input_grayscale : α
  mp_is_input_sRGB : α
  mp_get_input_pixel_array : α
  mp_get_input_model : α
  mp_get_input_model_subset_list : α
  mp_is_cache_enabled : α
  mp_register_node_cache : α
  mp_get_node_cache : α
  mp_is_input_model_uvs : α
  mp_get_input_light_scan : α
  mp_get_input_filter_data : α
  mp_get_source_input_filter_data : α
  mp_get_property_pagelist : α
  mp_get_property_file : α
  mp_get_property_checkbox : α
  mp_get_property_list : α
  mp_get_property_numberbox_int : α
  mp_get_property_numberbox_float : α
  mp_get_property_colorbox : α
  mp_get_property_slider : α
  mp_get_property_range_slider : α
  mp_get_property_coordsys : α
  mp_set_property_checkbox : α
  mp_set_property_list : α
  mp_set_property_numberbox_int : α
  mp_set_property_numberbox_float : α
  mp_set_property_colorbox : α
  mp_set_property_slider : α
  mp_set_property_range_slider : α
  mp_set_property_coordsys : α
  mp_is_cancel_process : α
  mp_set_map_progress : α
  mp_set_map_progress_animation : α
  mp_log_map_error : α
  mp_get_map_thread_limit : α
  mp_set_map_status : α
  mp_get_map_mask : α
  mp_get_map_output_filename : α
  mp_set_map_output_filename : α
  mp_create_map : α
  mp_update_map_region : α

/-- Initialize the plugin with function pointers (`plugin_initialize`,
map_plugin_core.cpp): every global is read from its slot of the host array.  The
result is the table of globals the plugin works with afterwards. -/
def plugin_initialize {α : Type} (function_pointer_array : Nat → α) : map_api α where
  mp_begin_initialize := function_pointer_array 0
  mp_end_initialize := function_pointer_array 1
  mp_define_translation_file := function_pointer_array 2
  mp_get_trans_string := function_pointer_array 3
  mp_define_help_file := function_pointer_array 4
  mp_get_option_default_tile_type := function_pointer_array 100
  mp_get_option_default_coord_sys := function_pointer_array 101
  mp_get_option_udim_u_max := function_pointer_array 102
  mp_get_option_udim_postfix_format := function_pointer_array 103
  mp_add_input := function_pointer_array 104
  mp_setup_source_input_filter := function_pointer_array 105
  mp_set_plugin_info := function_pointer_array 200
  mp_add_property_pagelist := function_pointer_array 300
  mp_add_property_file := function_pointer_array 301
  mp_add_property_checkbox := function_pointer_array 302
  mp_add_property_list := function_pointer_array 303
  mp_add_property_numberbox_int := function_pointer_array 304
  mp_add_property_numberbox_float := function_pointer_array 305
  mp_add_property_colorbox := function_pointer_array 306
  mp_add_property_slider := function_pointer_array 307
  mp_add_property_range_slider := function_pointer_array 308
  mp_add_property_coordsys := function_pointer_array 309
  mp_get_source_width := function_pointer_array 400
  mp_get_source_height := function_pointer_array 401
  mp_is_source_grayscale := function_pointer_array 402
  mp_is_source_rasterized := function_pointer_array 403
  mp_is_source_sRGB := function_pointer_array 404
  mp_get_source_pixel_array := function_pointer_array 405
  mp_get_input_id := function_pointer_array 500
  mp_get_input_width := function_pointer_array 501
  mp_get_input_height := function_pointer_array 502
  mp_get_input_coordsys := function_pointer_array 503
  mp_get_input_tile_type := function_pointer_array 504
  mp_is_input_grayscale := function_pointer_array 505
  mp_is_input_sRGB := function_pointer_array 506
  mp_get_input_pixel_array := function_pointer_array 507
  mp_get_input_model := function_pointer_array 508
  mp_get_input_model_subset_list := function_pointer_array 509
  mp_is_cache_enabled := function_pointer_array 510
  mp_register_node_cache := function_pointer_array 511
  mp_get_node_cache := function_pointer_array 512
  mp_is_input_model_uvs := function_pointer_array 513
  mp_get_input_light_scan := function_pointer_array 514
  mp_get_input_filter_data := function_pointer_array 515
  mp_get_source_input_filter_data := function_pointer_array 516
  mp_get_property_pagelist := function_pointer_array 600
  mp_get_property_file := function_pointer_array 601
  mp_get_property_checkbox := function_pointer_array 602
  mp_get_property_list := function_pointer_array 603
  mp_get_property_numberbox_int := function_pointer_array 604
  mp_get_property_numberbox_float := function_pointer_array 605
  mp_get_property_colorbox := function_pointer_array 606
  mp_get_property_slider := function_pointer_array 607
  mp_get_property_range_slider := function_pointer_array 608
  mp_get_property_coordsys := function_pointer_array 609
  mp_set_property_checkbox := function_pointer_array 610
  mp_set_property_list := function_pointer_array 611
  mp_set_property_numberbox_int := function_pointer_array 612
  mp_set_property_numberbox_float := function_pointer_array 613
  mp_set_property_colorbox := function_pointer_array 614
  mp_set_property_slider := function_pointer_array 615
  mp_set_property_range_slider := function_pointer_array 616
  mp_set_property_coordsys := function_pointer_array 617
  mp_is_cancel_process := function_pointer_array 700
  mp_set_map_progress := function_pointer_array 701
  mp_set_map_progress_animation := function_pointer_array 702
  mp_log_map_error := function_pointer_array 703
  mp_get_map_thread_limit := function_pointer_array 704
  mp_set_map_status := function_pointer_array 705
  mp_get_map_mask := function_pointer_array 706
  mp_get_map_output_filename := function_pointer_array 707
  mp_set_map_output_filename := function_pointer_array 708
  mp_create_map := function_pointer_array 800
  mp_update_map_region := function_pointer_array 801

end map_plugin_core

/-! ## Geometry plugin core: structs and host calls -/

namespace geo_plugin_core

/-- Geometry types (`GP_GEOMETRY_TYPE_RENDER`, geo_plugin_core.cpp:78). -/
def GP_GEOMETRY_TYPE_RENDER : Nat := 0

/-- Geometry types (`GP_GEOMETRY_TYPE_NODE`, geo_plugin_core.cpp:79). -/
def GP_GEOMETRY_TYPE_NODE : Nat := 1

/-- Geometry RENDER vertex (`struct gp_render_vertex_s`). -/
structure gp_render_vertex_s (α : Type) where
  x : α
  y : α
  z : α
  nx : α
  ny : α
  nz : α
  u : α
  v : α
deriving DecidableEq, Repr

/-- Geometry RENDER face (`struct gp_render_face_s`). -/
structure gp_render_face_s where
  a : Nat
  b : Nat
  c : Nat
  subset_index : Nat
deriving DecidableEq, Repr

/-- Geometry NODE vertex (`struct gp_node_vertex_s`). -/
structure gp_node_vertex_s (α : Type) where
  x : α
  y : α
  z : α
  nx : α
  ny : α
  nz : α
deriving DecidableEq, Repr

/-- Geometry NODE uv entry (`struct gp_node_uv_s`). -/
structure gp_node_uv_s (α : Type) where
  u : α
  v : α
deriving DecidableEq, Repr

/-- Geometry node face (`struct gp_node_face_s`). -/
structure gp_node_face_s where
  a : Nat
  b : Nat
  c : Nat
  subset_index : Nat
  color : Nat
deriving DecidableEq, Repr

/-- The face the default constructor `gp_node_face_s(void)` builds: all
indices zero and `color = RGB(191, 191, 191)`. -/
def gp_node_face_default : gp_node_face_s :=
  { a := 0, b := 0, c := 0, subset_index := 0, color := 191 + 191 * 256 + 191 * 65536 }

/-- Geometry node uv data (`struct gp_node_uv_data_s`): the pointer arrays
are lists, one entry per uv channel. -/
structure gp_node_uv_data_s (α : Type) where
  uv_channel_count : Nat
  uv_channels_array : List (List (gp_node_uv_s α))
  uv_count_array : List Nat
  uv_indices_array : List (List Nat)
deriving DecidableEq, Repr

/-- A call of the geometry plugin into the host, with its arguments.  The
macro `LOG_ERROR_MSG(plugin_index, error)` is a call of `gp_log_plugin_error`;
the function, file and line arguments it adds are left out. -/
inductive gp_call (α : Type) where
  | get_geometry_type
  | log_plugin_error (plugin_index : Nat) (error_message : String)
  | create_render_geometry (vertex_array : List (gp_render_vertex_s α)) (vertex_count : Nat)
      (triangle_array : List gp_render_face_s) (triangle_count : Nat) (subset_count : Nat)
      (is_create_normals : Bool) (additional_uv_array_count : Nat)
  | create_node_geometry (vertex_array : List (gp_node_vertex_s α)) (vertex_count : Nat)
      (triangle_array : List gp_node_face_s) (triangle_count : Nat)
      (uv_data : gp_node_uv_data_s α) (subset_count : Nat) (is_create_normals : Bool)
deriving DecidableEq, Repr

/-- Whether a call is `gp_log_plugin_error`. -/
def gp_call.is_log {α : Type} : gp_call α → Bool
  | .log_plugin_error _ _ => true
  | _ => false

/-- Whether a call sends geometry to the host (`gp_create_render_geometry` or
`gp_create_node_geometry`). -/
def gp_call.is_create {α : Type} : gp_call α → Bool
  | .create_render_geometry _ _ _ _ _ _ _ => true
  | .create_node_geometry _ _ _ _ _ _ _ => true
  | _ => false

end geo_plugin_core

/-! ## geo_custom: the CUSTOM file loader -/

namespace geo_custom

open geo_plugin_core

/-- Local struct `vector_2_s` of `on_process`. -/
structure vector_2_s (α : Type) where
  x : α
  y : α
deriving DecidableEq, Repr

/-- Local struct `vertex_s` of `on_process`. -/
structure vertex_s (α : Type) where
  position : vector_3_s α
  normal : vector_3_s α
deriving DecidableEq, Repr

/-- Everything outside the plugin that `on_process` depends on.

* `geometry_type`: the answer of `gp_get_geometry_type`.
* `file`: the CUSTOM file as a sequence of 32-bit words (every item of the
  format is four bytes wide), or `none` when `_wfopen_s` cannot open it.
* `as_float`: the `float` a 32-bit word stands for.
* `alloc_*`: whether the `new (std::nothrow)` allocation of that array
  succeeds.
* `vector_alloc k`: whether the `k`-th operation of the run that grows a
  `std::vector` (`push_back` or `resize`, counted from 0) obtains its storage;
  when it does not, the operation throws `std::bad_alloc`.
* `create_render_geometry`, `create_node_geometry`: the answers of the host.
* `uninit_*`: the indeterminate contents of the three count variables and of
  the freshly allocated arrays, which `fread` overwrites as far as the file
  reaches. -/
structure geo_env (α : Type) where
  geometry_type : Nat
  file : Option (List Nat)
  as_float : Nat → α
  alloc_vertex_array : Bool
  alloc_uv_array : Bool
  alloc_index_array : Bool
  alloc_uv_channels_array : Bool
  alloc_uv_channels_array_0 : Bool
  alloc_uv_indices_array : Bool
  alloc_uv_indices_array_0 : Bool
  alloc_uv_count_array : Bool
  vector_alloc : Nat → Bool
  create_render_geometry : Bool
  create_node_geometry : Bool
  uninit_vertex_count : Nat
  uninit_uv_count : Nat
  uninit_index_count : Nat
  uninit_vertex_array : Nat → Nat
  uninit_uv_array : Nat → Nat
  uninit_index_array : Nat → Nat

/-- What `on_process` returns, the calls it made into the host, in order, and
the outcome of each `new (std::nothrow)` allocation it attempted, in order.
`bad_alloc` says that a `std::vector` operation threw `std::bad_alloc`:
`on_process` has no handler, so it is left at that point without returning a
value, and `is_success` then holds what the local variable held (TRUE). -/
structure geo_result (α : Type) where
  is_success : Bool
  calls : List (gp_call α)
  allocations : List Bool
  bad_alloc : Bool
deriving DecidableEq, Repr

/-- The C library call `fread(buffer, 4, count, fp)` on words: the words the
stream still holds, at most `count`, overwrite the front of the buffer and
the rest of the buffer keeps what it held.  The result is the buffer and the
rest of the stream.  The return value of `fread`, the number of items
delivered, is not part of the result because `on_process` discards it. -/
def fread (buffer : List Nat) (count : Nat) (stream : List Nat) : List Nat × List Nat :=
  (stream.take count ++ buffer.drop (stream.take count).length, stream.drop count)

/-- Element `k` of `vertex_array` (six floats per `vertex_s`).  Reading past
the end of the array is undefined in C and reads the word 0 here. -/
def vertex_at {α : Type} (as_float : Nat → α) (vertex_array : List Nat) (k : Nat) : vertex_s α :=
  { position := { x := as_float (vertex_array.getD (6 * k) 0),
                  y := as_float (vertex_array.getD (6 * k + 1) 0),
                  z := as_float (vertex_array.getD (6 * k + 2) 0) },
    normal := { x := as_float (vertex_array.getD (6 * k + 3) 0),
                y := as_float (vertex_array.getD (6 * k + 4) 0),
                z := as_float (vertex_array.getD (6 * k + 5) 0) } }

/-- Element `k` of `uv_array` (two floats per `vector_2_s`). -/
def uv_at {α : Type} (as_float : Nat → α) (uv_array : List Nat) (k : Nat) : vector_2_s α :=
  { x := as_float (uv_array.getD (2 * k) 0), y := as_float (uv_array.getD (2 * k + 1) 0) }

/-- The values `i` takes in `for(i=0; i<index_count; i+=7)`: 0, 7, 14, ...
below `index_count` (for `index_count ≤ 2^32 - 7`, where `i` cannot wrap). -/
def loop_indices (index_count : Nat) : List Nat :=
  (List.range ((index_count + 6) / 7)).map (fun k => 7 * k)

/-- The two lists the RENDER branch builds. -/
structure render_lists (α : Type) where
  render_vertex_list : List (gp_render_vertex_s α)
  render_face_list : List gp_render_face_s

/-- The render vertex made of `vertex_array[vi]` and `uv_array[ti]`: position
and normal are copied and the texture coordinates are `(u, -v)`. -/
def make_render_vertex {α : Type} [Neg α] (as_float : Nat → α)
    (vertex_array uv_array : List Nat) (vi ti : Nat) : gp_render_vertex_s α :=
  { x := (vertex_at as_float vertex_array vi).position.x,
    nx := (vertex_at as_float vertex_array vi).normal.x,
    y := (vertex_at as_float vertex_array vi).position.y,
    ny := (vertex_at as_float vertex_array vi).normal.y,
    z := (vertex_at as_float vertex_array vi).position.z,
    nz := (vertex_at as_float vertex_array vi).normal.z,
    u := (uv_at as_float uv_array ti).x,
    v := -(uv_at as_float uv_array ti).y }

/-- One iteration of the RENDER loop (geo_custom.cpp:309-353): three vertices
are pushed, each face index is the size of the vertex list minus one right
after its push, and the face is pushed with subset 0. -/
def render_step {α : Type} [Neg α] (as_float : Nat → α)
    (vertex_array uv_array index_array : List Nat)
    (st : render_lists α) (i : Nat) : render_lists α :=
  let l1 := st.render_vertex_list ++
    [make_render_vertex as_float vertex_array uv_array
      (index_array.getD i 0) (index_array.getD (i + 3) 0)]
  let a := u32 l1.length - 1
  let l2 := l1 ++
    [make_render_vertex as_float vertex_array uv_array
      (index_array.getD (i + 1) 0) (index_array.getD (i + 4) 0)]
  let b := u32 l2.length - 1
  let l3 := l2 ++
    [make_render_vertex as_float vertex_array uv_array
      (index_array.getD (i + 2) 0) (index_array.getD (i + 5) 0)]
  let c := u32 l3.length - 1
  { render_vertex_list := l3,
    render_face_list := st.render_face_list ++ [{ a := a, b := b, c := c, subset_index := 0 }] }

/-- The state of the NODE loop: the face list, the uv indices of channel 0
and the two running positions `ui_0`, `ui_1`. -/
structure node_lists where
  node_face_list : List gp_node_face_s
  uv_indices : List Nat
  ui_0 : Nat
  ui_1 : Nat

/-- One iteration of the NODE loop (geo_custom.cpp:429-442).  A store past the
end of a list is undefined in C and is dropped here. -/
def node_step (index_array : List Nat) (st : node_lists) (i : Nat) : node_lists :=
  let face := st.node_face_list.getD st.ui_0 gp_node_face_default
  let face := { face with a := index_array.getD i 0,
                          b := index_array.getD (i + 1) 0,
                          c := index_array.getD (i + 2) 0,
                          subset_index := 0 }
  { node_face_list := st.node_face_list.set st.ui_0 face,
    uv_indices :=
      ((st.uv_indices.set st.ui_1 (index_array.getD (i + 3) 0)).set
        (st.ui_1 + 1) (index_array.getD (i + 4) 0)).set
        (st.ui_1 + 2) (index_array.getD (i + 5) 0),
    ui_0 := st.ui_0 + 1,
    ui_1 := st.ui_1 + 3 }

/-- The GP_GEOMETRY_TYPE_RENDER branch of `on_process` (geo_custom.cpp:305-361),
entered with the calls made so far.  Every iteration of the loop makes four
`push_back` calls (geo_custom.cpp:321, 334, 347 on `render_vertex_list`, 352 on
`render_face_list`); the loop makes no call into the host, so a `push_back`
that throws leaves `on_process` with the calls made before the loop. -/
def on_process_render {α : Type} [Neg α] (env : geo_env α) (plugin_index : Nat)
    (calls : List (gp_call α)) (allocations : List Bool)
    (vertex_array uv_array index_array : List Nat)
    (index_count : Nat) : geo_result α :=
  if !(List.range (4 * (loop_indices index_count).length)).all env.vector_alloc then
    { is_success := true, bad_alloc := true, allocations := allocations, calls := calls }
  else
    let st := (loop_indices index_count).foldl
      (render_step env.as_float vertex_array uv_array index_array)
      { render_vertex_list := [], render_face_list := [] }
    let calls := calls ++
      [gp_call.create_render_geometry st.render_vertex_list (u32 st.render_vertex_list.length)
        st.render_face_list (u32 st.render_face_list.length) 1 false 0]
    if !env.create_render_geometry then
      { is_success := false, bad_alloc := false, allocations := allocations,
        calls := calls ++ [gp_call.log_plugin_error plugin_index
          "Failed to create render geometry with gp_create_render_geometry."] }
    else
      { is_success := true, bad_alloc := false, allocations := allocations, calls := calls }

/-- The GP_GEOMETRY_TYPE_NODE branch of `on_process` (geo_custom.cpp:364-450).
The storage of `uv_indices_array[0]` starts as zeros (its contents are
indeterminate in C until the loop has stored every entry).  The two `resize`
calls (geo_custom.cpp:416 on `node_vertex_list`, 426 on `node_face_list`) are
the `std::vector` operations 0 and 1 of the run; one that throws leaves
`on_process` with the calls made so far. -/
def on_process_node {α : Type} (env : geo_env α) (plugin_index : Nat)
    (calls : List (gp_call α)) (allocations : List Bool)
    (vertex_array uv_array index_array : List Nat)
    (vertex_count uv_count index_count face_count : Nat) : geo_result α :=
  let allocations := allocations ++ [env.alloc_uv_channels_array]
  if !env.alloc_uv_channels_array then
    { is_success := false, bad_alloc := false, allocations := allocations,
      calls := calls ++ [gp_call.log_plugin_error plugin_index
        "Memory Allocation Error: Faile to allocate node_uv_data.uv_channels_array."] }
  else
    let allocations := allocations ++ [env.alloc_uv_channels_array_0]
    if !env.alloc_uv_channels_array_0 then
      { is_success := false, bad_alloc := false, allocations := allocations,
        calls := calls ++ [gp_call.log_plugin_error plugin_index
          "Memory Allocation Error: Faile to allocate node_uv_data.uv_channels_array[0]."] }
    else
      let uv_channel_0 : List (gp_node_uv_s α) := (List.range uv_count).map
        (fun k => { u := (uv_at env.as_float uv_array k).x,
                    v := (uv_at env.as_float uv_array k).y })
      let allocations := allocations ++ [env.alloc_uv_indices_array]
      if !env.alloc_uv_indices_array then
        { is_success := false, bad_alloc := false, allocations := allocations,
          calls := calls ++ [gp_call.log_plugin_error plugin_index
            "Memory Allocation Error: Faile to allocate node_uv_data.uv_indices_array."] }
      else
        let allocations := allocations ++ [env.alloc_uv_indices_array_0]
        if !env.alloc_uv_indices_array_0 then
          { is_success := false, bad_alloc := false, allocations := allocations,
            calls := calls ++ [gp_call.log_plugin_error plugin_index
              "Memory Allocation Error: Faile to allocate node_uv_data.uv_indices_array[0]."] }
        else
          let allocations := allocations ++ [env.alloc_uv_count_array]
          if !env.alloc_uv_count_array then
            { is_success := false, bad_alloc := false, allocations := allocations,
              calls := calls ++ [gp_call.log_plugin_error plugin_index
                "Memory Allocation Error: Faile to allocate node_uv_data.uv_count_array."] }
          else
            if !env.vector_alloc 0 then
              { is_success := true, bad_alloc := true, allocations := allocations,
                calls := calls }
            else
              let node_vertex_list : List (gp_node_vertex_s α) := (List.range vertex_count).map
                (fun k => { x := (vertex_at env.as_float vertex_array k).position.x,
                            y := (vertex_at env.as_float vertex_array k).position.y,
                            z := (vertex_at env.as_float vertex_array k).position.z,
                            nx := (vertex_at env.as_float vertex_array k).normal.x,
                            ny := (vertex_at env.as_float vertex_array k).normal.y,
                            nz := (vertex_at env.as_float vertex_array k).normal.z })
              if !env.vector_alloc 1 then
                { is_success := true, bad_alloc := true, allocations := allocations,
                  calls := calls }
              else
                let st := (loop_indices index_count).foldl (node_step index_array)
                  { node_face_list := List.replicate face_count gp_node_face_default,
                    uv_indices := List.replicate (u32 (face_count * 3)) 0,
                    ui_0 := 0, ui_1 := 0 }
                let node_uv_data : gp_node_uv_data_s α :=
                  { uv_channel_count := 1,
                    uv_channels_array := [uv_channel_0],
                    uv_count_array := [uv_count],
                    uv_indices_array := [st.uv_indices] }
                let calls := calls ++
                  [gp_call.create_node_geometry node_vertex_list vertex_count st.node_face_list
                    face_count node_uv_data 1 false]
                if !env.create_node_geometry then
                  { is_success := false, bad_alloc := false, allocations := allocations,
                    calls := calls ++ [gp_call.log_plugin_error plugin_index
                      "Failed to create node geometry with gp_create_node_geometry."] }
                else
                  { is_success := true, bad_alloc := false, allocations := allocations,
                    calls := calls }

/-- Process plugin - called when plugin is asked by ShaderMap to import a 3D
Model (`on_process`, geo_custom.cpp:181).  The file named by `file_path` is
`env.file`.  Every `goto ON_PROCESS_CLEANUP` ends the function with the value
of `is_success`; the cleanup frees memory and makes no call. -/
def on_process {α : Type} [Neg α] (env : geo_env α) (plugin_index : Nat) : geo_result α :=
  let calls : List (gp_call α) := [gp_call.get_geometry_type]
  let geometry_type := env.geometry_type
  match env.file with
  | none =>
    { is_success := false, bad_alloc := false, allocations := [],
      calls := calls ++ [gp_call.log_plugin_error plugin_index
        "Failed to open file at file_path."] }
  | some fp =>
    let r1 := fread [env.uninit_vertex_count] 1 fp
    let vertex_count := r1.1.getD 0 0
    let r2 := fread [env.uninit_uv_count] 1 r1.2
    let uv_count := r2.1.getD 0 0
    let r3 := fread [env.uninit_index_count] 1 r2.2
    let index_count := r3.1.getD 0 0
    if vertex_count = 0 ∨ uv_count = 0 ∨ index_count = 0 then
      { is_success := false, bad_alloc := false, allocations := [],
        calls := calls ++ [gp_call.log_plugin_error plugin_index
          "One of the geometry counts was zero."] }
    else if !env.alloc_vertex_array then
      { is_success := false, bad_alloc := false, allocations := [env.alloc_vertex_array],
        calls := calls ++ [gp_call.log_plugin_error plugin_index
          "Memory Allocation Error: Failed to allocate vertex_array."] }
    else if !env.alloc_uv_array then
      { is_success := false, bad_alloc := false, allocations := [env.alloc_vertex_array, env.alloc_uv_array],
        calls := calls ++ [gp_call.log_plugin_error plugin_index
          "Memory Allocation Error: Failed to allocate uv_array."] }
    else if !env.alloc_index_array then
      { is_success := false, bad_alloc := false,
        allocations := [env.alloc_vertex_array, env.alloc_uv_array, env.alloc_index_array],
        calls := calls ++ [gp_call.log_plugin_error plugin_index
          "Memory Allocation Error: Failed to allocate index_array."] }
    else
      let allocations := [env.alloc_vertex_array, env.alloc_uv_array, env.alloc_index_array]
      let r4 := fread ((List.range (6 * vertex_count)).map env.uninit_vertex_array)
        (6 * vertex_count) r3.2
      let vertex_array := r4.1
      let r5 := fread ((List.range (2 * uv_count)).map env.uninit_uv_array)
        (2 * uv_count) r4.2
      let uv_array := r5.1
      let r6 := fread ((List.range index_count).map env.uninit_index_array) index_count r5.2
      let index_array := r6.1
      let face_count := index_count / 7
      if geometry_type = GP_GEOMETRY_TYPE_RENDER then
        on_process_render env plugin_index calls allocations vertex_array uv_array index_array
          index_count
      else if geometry_type = GP_GEOMETRY_TYPE_NODE then
        on_process_node env plugin_index calls allocations vertex_array uv_array index_array
          vertex_count uv_count index_count face_count
      else
        { is_success := true, bad_alloc := false, allocations := allocations, calls := calls }

end geo_custom

/-! ## Filter plugin core: structs and host calls -/

/-- The memory copy `memcpy(dest, src, count * sizeof(item))` into a fresh array
of `count` items.  Reading past the end of `src` is undefined in C and yields
`dflt` here. -/
def copy_array {β : Type} (src : List β) (count : Nat) (dflt : β) : List β :=
  (List.range count).map (fun i => src.getD i dflt)

namespace filter_plugin_core

/-- Struct for the `on_process` function (`struct process_data_s`,
filter_plugin_core.cpp:132).  `map_pixel_data` is the channel array behind the
`void*`: two values per pixel (Color, Alpha) when `is_grayscale`, else four
(Red, Green, Blue, Alpha). -/
structure process_data_s (α : Type) where
  map_id : Nat
  filter_position : Int
  is_grayscale : Bool
  is_sRGB : Bool
  is_normal_map : Bool
  map_width : Nat
  map_height : Nat
  map_tile_type : Nat
  map_coordinate_system : Nat
  map_pixel_data : List α

/-- A call of a filter plugin into the host, with its arguments.  The macro
`LOG_ERROR_MSG(map_id, filter_position, error)` is a call of
`fp_log_filter_error`; the function, file and line arguments are left out. -/
inductive fp_call where
  | set_filter_progress (map_id : Nat) (filter_position : Int) (progress : Nat)
  | get_map_thread_limit
  | get_property_slider (map_id : Nat) (filter_position : Int) (property_index : Nat)
  | get_property_checkbox (map_id : Nat) (filter_position : Int) (property_index : Nat)
  | get_map_mask (map_id : Nat)
  | is_cancel_process
  | log_filter_error (map_id : Nat) (filter_position : Int) (error_message : String)
deriving DecidableEq, Repr

/-- Whether a call is `fp_log_filter_error`. -/
def fp_call.is_log : fp_call → Bool
  | .log_filter_error _ _ _ => true
  | _ => false

end filter_plugin_core

/-! ## filter_rgba -/

namespace filter_rgba

open filter_plugin_core

/-- Everything outside the plugin that `on_process` depends on.

* `thread_limit`: the answer of `fp_get_map_thread_limit`.
* `slider i`, `checkbox i`: the answers of `fp_get_property_slider` and
  `fp_get_property_checkbox` for property index `i`.
* `mask_width`, `mask_height`, `mask_pixel_array`: what `fp_get_map_mask`
  stores in its out parameters; `none` is the null pointer (no mask set).
* `cancel k`: the answer of the `k`-th call of `fp_is_cancel_process`.
* `alloc_*`: whether that allocation succeeds (`alloc_resized_pixel_array` is
  the allocation inside `resize_mask_pixels`). -/
structure filter_env where
  thread_limit : Nat
  slider : Nat → Int
  checkbox : Nat → Bool
  mask_width : Nat
  mask_height : Nat
  mask_pixel_array : Option (List Nat)
  cancel : Nat → Bool
  alloc_local_mask_pixel_array : Bool
  alloc_resized_pixel_array : Bool

/-- What `on_process` leaves behind: the returned BOOL, the value stored in
`*is_sRGB_out` (`none` when nothing was stored), the map pixels, which the
filter changes in place, the calls made into the host, in order, and the
outcome of each allocation attempted, in order. -/
structure filter_result (α : Type) where
  result : Bool
  is_sRGB_out : Option Bool
  map_pixel_data : List α
  calls : List fp_call
  allocations : List Bool

/-- The loop `local_mask_pixel_array[i] = USHRT_MAX - local_mask_pixel_array[i]`
for `i < count_i`; the stored value is an `unsigned short`. -/
def invert_mask (local_mask_pixel_array : List Nat) (count_i : Nat) : List Nat :=
  (List.range count_i).foldl
    (fun m i => m.set i ((USHRT_MAX - m.getD i 0) % 65536)) local_mask_pixel_array

/-- Body of the grayscale loop with mask (filter_rgba.cpp:383-384). -/
def step_32_mask {α : Type} [LinearOrderedField α] (r a : α) (local_mask_pixel_array : List Nat)
    (px : List α) (i : Nat) : List α :=
  let px := px.set (2 * i)
    (clamp_f (px.getD (2 * i) 0 + r * ((local_mask_pixel_array.getD i 0 : α) / (USHRT_MAX : α))))
  px.set (2 * i + 1)
    (clamp_f (px.getD (2 * i + 1) 0 + a * ((local_mask_pixel_array.getD i 0 : α) / (USHRT_MAX : α))))

/-- Body of the grayscale loop without mask (filter_rgba.cpp:396-397). -/
def step_32 {α : Type} [LinearOrderedField α] (r a : α) (px : List α) (i : Nat) : List α :=
  let px := px.set (2 * i) (clamp_f (px.getD (2 * i) 0 + r))
  px.set (2 * i + 1) (clamp_f (px.getD (2 * i + 1) 0 + a))

/-- Body of the RGBA loop with mask (filter_rgba.cpp:417-420). -/
def step_64_mask {α : Type} [LinearOrderedField α] (r g b a : α)
    (local_mask_pixel_array : List Nat) (px : List α) (i : Nat) : List α :=
  let px := px.set (4 * i)
    (clamp_f (px.getD (4 * i) 0 + r * ((local_mask_pixel_array.getD i 0 : α) / (USHRT_MAX : α))))
  let px := px.set (4 * i + 1)
    (clamp_f (px.getD (4 * i + 1) 0 + g * ((local_mask_pixel_array.getD i 0 : α) / (USHRT_MAX : α))))
  let px := px.set (4 * i + 2)
    (clamp_f (px.getD (4 * i + 2) 0 + b * ((local_mask_pixel_array.getD i 0 : α) / (USHRT_MAX : α))))
  px.set (4 * i + 3)
    (clamp_f (px.getD (4 * i + 3) 0 + a * ((local_mask_pixel_array.getD i 0 : α) / (USHRT_MAX : α))))

/-- Body of the RGBA loop without mask (filter_rgba.cpp:432-435). -/
def step_64 {α : Type} [LinearOrderedField α] (r g b a : α) (px : List α) (i : Nat) : List α :=
  let px := px.set (4 * i) (clamp_f (px.getD (4 * i) 0 + r))
  let px := px.set (4 * i + 1) (clamp_f (px.getD (4 * i + 1) 0 + g))
  let px := px.set (4 * i + 2) (clamp_f (px.getD (4 * i + 2) 0 + b))
  px.set (4 * i + 3) (clamp_f (px.getD (4 * i + 3) 0 + a))

/-- The pixel stage of `on_process` (filter_rgba.cpp:367-438): one of the four
loops runs over `count_i = map_width * map_height` pixels.  A store past the
end of the pixel array is undefined in C and is dropped here. -/
def apply_filter {α : Type} [LinearOrderedField α] (data : process_data_s α) (r g b a : α)
    (is_use_mask : Bool) (local_mask_pixel_array : Option (List Nat)) : List α :=
  let count_i := u32 (data.map_width * data.map_height)
  if data.is_grayscale then
    match is_use_mask, local_mask_pixel_array with
    | true, some m => (List.range count_i).foldl (step_32_mask r a m) data.map_pixel_data
    | _, _ => (List.range count_i).foldl (step_32 r a) data.map_pixel_data
  else
    match is_use_mask, local_mask_pixel_array with
    | true, some m => (List.range count_i).foldl (step_64_mask r g b a m) data.map_pixel_data
    | _, _ => (List.range count_i).foldl (step_64 r g b a) data.map_pixel_data

/-- The mask stage of `on_process` (filter_rgba.cpp:309-353), entered with the
calls made so far.  It ends `on_process` with FALSE (left) or goes on with
`is_use_mask`, `local_mask_pixel_array`, the calls and the allocations
(right). -/
def get_mask {α : Type} (env : filter_env) (data : process_data_s α)
    (is_use_mask is_invert_mask : Bool) (calls : List fp_call) :
    filter_result α ⊕ (Bool × Option (List Nat) × List fp_call × List Bool) :=
  if is_use_mask then
    let calls := calls ++ [fp_call.get_map_mask data.map_id]
    match env.mask_pixel_array with
    | none => Sum.inr (false, none, calls, [])
    | some mask_pixel_array =>
      let allocations := [env.alloc_local_mask_pixel_array]
      if !env.alloc_local_mask_pixel_array then
        Sum.inl
          { result := false, is_sRGB_out := none, map_pixel_data := data.map_pixel_data,
            allocations := allocations,
            calls := calls ++ [fp_call.log_filter_error data.map_id data.filter_position
              "Memory Allocation Error: Failed to allocate local_mask_pixel_array."] }
      else
        let local_mask_pixel_array :=
          copy_array mask_pixel_array (u32 (env.mask_width * env.mask_height)) 0
        let resized :=
          if env.mask_width ≠ data.map_width ∨ env.mask_height ≠ data.map_height then
            resize_mask_pixels env.alloc_resized_pixel_array local_mask_pixel_array
              env.mask_width env.mask_height data.map_width data.map_height
          else
            some local_mask_pixel_array
        let allocations := allocations ++
          (if env.mask_width ≠ data.map_width ∨ env.mask_height ≠ data.map_height then
            resize_mask_pixels_allocations env.alloc_resized_pixel_array
              env.mask_width env.mask_height data.map_width data.map_height
          else [])
        match resized with
        | none =>
          Sum.inl
            { result := false, is_sRGB_out := none, map_pixel_data := data.map_pixel_data,
              allocations := allocations,
              calls := calls ++ [fp_call.log_filter_error data.map_id data.filter_position
                "Resize mask pixels failed. Most likely caused by a memory allocation error."] }
        | some local_mask_pixel_array =>
          if is_invert_mask then
            Sum.inr (true,
              some (invert_mask local_mask_pixel_array (u32 (data.map_width * data.map_height))),
              calls, allocations)
          else
            Sum.inr (true, some local_mask_pixel_array, calls, allocations)
  else
    Sum.inr (is_use_mask, none, calls, [])

/-- Process plugin - called when plugin is asked by ShaderMap to apply a
filter to Map Pixels (`on_process`, filter_rgba.cpp:250). -/
def on_process {α : Type} [LinearOrderedField α] (env : filter_env) (data : process_data_s α) :
    filter_result α :=
  let calls := [fp_call.set_filter_progress data.map_id data.filter_position 0]
  if data.is_normal_map = true ∧ data.filter_position > 0 then
    { result := true, is_sRGB_out := some data.is_sRGB, map_pixel_data := data.map_pixel_data,
      allocations := [],
      calls := calls ++ [fp_call.set_filter_progress data.map_id data.filter_position 100] }
  else
    let thread_limit := env.thread_limit
    let calls := calls ++ [fp_call.get_map_thread_limit]
    let r : α := (env.slider 0 : α) / 100
    let g : α := (env.slider 1 : α) / 100
    let b : α := (env.slider 2 : α) / 100
    let a : α := (env.slider 3 : α) / 100
    let is_use_mask := env.checkbox 4
    let is_invert_mask := env.checkbox 5
    let calls := calls ++
      [fp_call.get_property_slider data.map_id data.filter_position 0,
       fp_call.get_property_slider data.map_id data.filter_position 1,
       fp_call.get_property_slider data.map_id data.filter_position 2,
       fp_call.get_property_slider data.map_id data.filter_position 3,
       fp_call.get_property_checkbox data.map_id data.filter_position 4,
       fp_call.get_property_checkbox data.map_id data.filter_position 5]
    if r = 0 ∧ g = 0 ∧ b = 0 ∧ a = 0 then
      { result := true, is_sRGB_out := some data.is_sRGB, map_pixel_data := data.map_pixel_data,
        allocations := [],
        calls := calls ++ [fp_call.set_filter_progress data.map_id data.filter_position 100] }
    else
      match get_mask env data is_use_mask is_invert_mask calls with
      | Sum.inl failed => failed
      | Sum.inr (is_use_mask, local_mask_pixel_array, calls, allocations) =>
        let calls := calls ++ [fp_call.is_cancel_process]
        if env.cancel 0 then
          { result := false, is_sRGB_out := none, map_pixel_data := data.map_pixel_data,
            allocations := allocations, calls := calls }
        else
          let map_pixel_data := apply_filter data r g b a is_use_mask local_mask_pixel_array
          let calls := calls ++ [fp_call.is_cancel_process]
          if env.cancel 1 then
            { result := false, is_sRGB_out := none, map_pixel_data := map_pixel_data,
              allocations := allocations, calls := calls }
          else
            { result := true, is_sRGB_out := some data.is_sRGB, map_pixel_data := map_pixel_data,
              allocations := allocations,
              calls := calls ++
                [fp_call.set_filter_progress data.map_id data.filter_position 100] }

end filter_rgba

/-! ## Map plugin core: structs and host calls -/

/-- Local struct `pixel_64_s` of the `on_process` functions: four half floats
(r, g, b, a) per pixel. -/
structure pixel_64_s (α : Type) where
  r : α
  g : α
  b : α
  a : α
deriving DecidableEq, Repr

namespace map_plugin_core

/-- Map coordinate system flag `MAP_COORDSYS_X_POS_RIGHT`. -/
def MAP_COORDSYS_X_POS_RIGHT : Nat := 0x00000002

/-- Map coordinate system flag `MAP_COORDSYS_Y_POS_DOWN`. -/
def MAP_COORDSYS_Y_POS_DOWN : Nat := 0x00000008

/-- Map coordinate system flag `MAP_COORDSYS_Z_POS_NEAR`. -/
def MAP_COORDSYS_Z_POS_NEAR : Nat := 0x00000010

/-- The struct sent to `mp_create_map` (`struct map_create_info_s`,
map_plugin_core.cpp:256).  `pixel_array` is the pixel array behind the
`const void*`; both example plugins send RGBA pixels. -/
structure map_create_info_s (α : Type) where
  width : Nat
  height : Nat
  is_grayscale : Bool
  is_sRGB : Bool
  coord_system : Nat
  tile_type : Nat
  pixel_array : List (pixel_64_s α)
deriving DecidableEq, Repr

/-- A call of a map plugin into the host, with its arguments.  The macro
`LOG_ERROR_MSG(map_id, error)` is a call of `mp_log_map_error`; the function,
file and line arguments are left out, and so is the third argument of
`mp_create_map`, which is always the null pointer. -/
inductive mp_call (α : Type) where
  | set_map_progress (map_id : Nat) (progress : Nat)
  | get_map_thread_limit
  | is_input_grayscale (map_id : Nat) (input_index : Nat)
  | get_input_width (map_id : Nat) (input_index : Nat)
  | get_input_height (map_id : Nat) (input_index : Nat)
  | get_input_tile_type (map_id : Nat) (input_index : Nat)
  | get_input_pixel_array (map_id : Nat) (input_index : Nat)
  | is_source_grayscale (map_id : Nat)
  | get_source_width (map_id : Nat)
  | get_source_height (map_id : Nat)
  | is_source_rasterized (map_id : Nat)
  | get_source_pixel_array (map_id : Nat)
  | get_property_list (map_id : Nat) (property_index : Nat)
  | get_property_coordsys (map_id : Nat) (property_index : Nat)
  | get_property_slider (map_id : Nat) (property_index : Nat)
  | get_property_checkbox (map_id : Nat) (property_index : Nat)
  | get_map_mask (map_id : Nat)
  | is_cancel_process
  | log_map_error (map_id : Nat) (error_message : String)
  | create_map (map_id : Nat) (create_info : map_create_info_s α)
deriving DecidableEq, Repr

/-- Whether a call is `mp_log_map_error`. -/
def mp_call.is_log {α : Type} : mp_call α → Bool
  | .log_map_error _ _ => true
  | _ => false

/-- Whether a call is `mp_create_map`. -/
def mp_call.is_create {α : Type} : mp_call α → Bool
  | .create_map _ _ => true
  | _ => false

/-- What an `on_process` of a map plugin returns, the calls it made into the
host, in order, and the outcome of each allocation it attempted, in order. -/
structure map_result (α : Type) where
  result : Bool
  calls : List (mp_call α)
  allocations : List Bool
deriving DecidableEq, Repr

end map_plugin_core

/-! ## map_color_to_ts_normal -/

namespace map_color_to_ts_normal

open map_plugin_core

/-- Blending define `CHANNEL_BLEND_ALPHA_R32(B,L,O)`. -/
def CHANNEL_BLEND_ALPHA_R32 {α : Type} [LinearOrderedField α] (B L O : α) : α :=
  O * B + (1 - O) * L

/-- Blending define `CHANNEL_BLEND_NORMAL_R32(B,L)`. -/
def CHANNEL_BLEND_NORMAL_R32 {α : Type} (_B L : α) : α := L

/-- Blending define `CHANNEL_BLEND_ALPHA_R_R32(B,L,F,O)`. -/
def CHANNEL_BLEND_ALPHA_R_R32 {α : Type} [LinearOrderedField α] (B L : α) (F : α → α → α)
    (O : α) : α :=
  CHANNEL_BLEND_ALPHA_R32 (F B L) B O

/-- Everything outside the plugin that `on_process` depends on: the answers of
the host queries (`slider i`, `checkbox i` by property index; `cancel k` for
the `k`-th poll; `mask_pixel_array = none` is the null pointer), whether each
allocation succeeds, and the answer of `mp_create_map`. -/
structure map_env (α : Type) where
  thread_limit : Nat
  is_input_grayscale : Bool
  input_width : Nat
  input_height : Nat
  slider : Nat → Int
  checkbox : Nat → Bool
  input_tile_type : Nat
  input_pixel_array : List (pixel_64_s α)
  mask_width : Nat
  mask_height : Nat
  mask_pixel_array : Option (List Nat)
  cancel : Nat → Bool
  alloc_local_normal_map_pixels : Bool
  alloc_local_mask_pixel_array : Bool
  alloc_resized_pixel_array : Bool
  create_map : Bool

/-- The loop `local_mask_pixel_array[i] = USHRT_MAX - local_mask_pixel_array[i]`
for `i < count_i`; the stored value is an `unsigned short`. -/
def invert_mask (local_mask_pixel_array : List Nat) (count_i : Nat) : List Nat :=
  (List.range count_i).foldl
    (fun m i => m.set i ((USHRT_MAX - m.getD i 0) % 65536)) local_mask_pixel_array

/-- The pixel a default-constructed `pixel_64_s` holds (four zero halves). -/
def pixel_zero {α : Type} [LinearOrderedField α] : pixel_64_s α :=
  { r := 0, g := 0, b := 0, a := 0 }

/-- Body of the mask blending loop (map_color_to_ts_normal.cpp:409-420). -/
def blend_step {α : Type} [LinearOrderedField α] (local_mask_pixel_array : List Nat)
    (px : List (pixel_64_s α)) (i : Nat) : List (pixel_64_s α) :=
  let opacity : α := 1 - ((local_mask_pixel_array.getD i 0 : α) / 65535)
  let p := px.getD i pixel_zero
  let p := if p.b < 1 / 2 then { p with b := 1 - p.b } else p
  let p := { p with r := CHANNEL_BLEND_ALPHA_R_R32 p.r (1 / 2) CHANNEL_BLEND_NORMAL_R32 opacity }
  let p := { p with g := CHANNEL_BLEND_ALPHA_R_R32 p.g (1 / 2) CHANNEL_BLEND_NORMAL_R32 opacity }
  let p := { p with b := CHANNEL_BLEND_ALPHA_R_R32 p.b 1 CHANNEL_BLEND_NORMAL_R32 opacity }
  px.set i p

/-- Body of the conversion loop (map_color_to_ts_normal.cpp:440-452). -/
def convert_step {α : Type} [LinearOrderedField α] (sqrtf : α → α) (intensity : α)
    (px : List (pixel_64_s α)) (i : Nat) : List (pixel_64_s α) :=
  let p := px.getD i pixel_zero
  let v3_0 : vector_3_s α :=
    { x := (p.r * 2 - 1) * intensity, y := (p.g * 2 - 1) * intensity, z := p.b * 2 - 1 }
  let v3_0 := if v3_0.z < 0 then { v3_0 with z := -v3_0.z } else v3_0
  let v3_0 := normalize_vector sqrtf v3_0
  px.set i { p with r := v3_0.x, g := v3_0.y, b := v3_0.z }

/-- The mask stage of `on_process` (map_color_to_ts_normal.cpp:361-427),
entered with the calls and allocations made so far.  It ends `on_process` with
FALSE (left) or goes on with the pixels, the calls and the allocations
(right). -/
def apply_mask {α : Type} [LinearOrderedField α] (env : map_env α) (map_id : Nat)
    (width height : Nat) (is_use_mask is_invert_mask : Bool)
    (local_normal_map_pixels : List (pixel_64_s α)) (calls : List (mp_call α))
    (allocations : List Bool) :
    map_result α ⊕ (List (pixel_64_s α) × List (mp_call α) × List Bool) :=
  if is_use_mask then
    let calls := calls ++ [mp_call.get_map_mask map_id]
    match env.mask_pixel_array with
    | none => Sum.inr (local_normal_map_pixels, calls, allocations)
    | some mask_pixel_array =>
      let allocations := allocations ++ [env.alloc_local_mask_pixel_array]
      if !env.alloc_local_mask_pixel_array then
        Sum.inl
          { result := false, allocations := allocations,
            calls := calls ++ [mp_call.log_map_error map_id
              "Memory Allocation Error: Failed to allocate local_mask_pixel_array."] }
      else
        let local_mask_pixel_array :=
          copy_array mask_pixel_array (u32 (env.mask_width * env.mask_height)) 0
        let resized :=
          if env.mask_width ≠ width ∨ env.mask_height ≠ height then
            resize_mask_pixels env.alloc_resized_pixel_array local_mask_pixel_array
              env.mask_width env.mask_height width height
          else
            some local_mask_pixel_array
        let allocations := allocations ++
          (if env.mask_width ≠ width ∨ env.mask_height ≠ height then
            resize_mask_pixels_allocations env.alloc_resized_pixel_array
              env.mask_width env.mask_height width height
          else [])
        match resized with
        | none =>
          Sum.inl
            { result := false, allocations := allocations,
              calls := calls ++ [mp_call.log_map_error map_id
                "Resize mask pixels failed. Most likely caused by a memory allocation error."] }
        | some local_mask_pixel_array =>
          let count_i := u32 (width * height)
          let local_mask_pixel_array :=
            if is_invert_mask then invert_mask local_mask_pixel_array count_i
            else local_mask_pixel_array
          Sum.inr ((List.range count_i).foldl (blend_step local_mask_pixel_array)
            local_normal_map_pixels, calls, allocations)
  else
    Sum.inr (local_normal_map_pixels, calls, allocations)

/-- Process plugin - called when plugin is asked by ShaderMap to process Map
Pixels (`on_process`, map_color_to_ts_normal.cpp:287). -/
def on_process {α : Type} [LinearOrderedField α] (sqrtf : α → α) (env : map_env α)
    (map_id : Nat) : map_result α :=
  let calls : List (mp_call α) := [mp_call.set_map_progress map_id 0]
  let thread_limit := env.thread_limit
  let calls := calls ++ [mp_call.get_map_thread_limit, mp_call.is_input_grayscale map_id 0]
  if env.is_input_grayscale then
    { result := false, allocations := [],
      calls := calls ++ [mp_call.log_map_error map_id
        "Invalid input format. Grayscale images are not allowed."] }
  else
    let width := env.input_width
    let height := env.input_height
    let calls := calls ++ [mp_call.get_input_width map_id 0, mp_call.get_input_height map_id 0]
    if width = 0 ∨ height = 0 then
      { result := false, allocations := [],
        calls := calls ++ [mp_call.log_map_error map_id
          "Invalid input size. Width or height is zero."] }
    else
      let intensity : α := (env.slider 0 : α) / 100
      let is_use_mask := env.checkbox 1
      let is_invert_mask := env.checkbox 2
      let tile_type := env.input_tile_type
      let input_pixel_pointer := env.input_pixel_array
      let calls := calls ++
        [mp_call.get_property_slider map_id 0, mp_call.get_property_checkbox map_id 1,
         mp_call.get_property_checkbox map_id 2, mp_call.get_input_tile_type map_id 0,
         mp_call.get_input_pixel_array map_id 0]
      let allocations := [env.alloc_local_normal_map_pixels]
      if !env.alloc_local_normal_map_pixels then
        { result := false, allocations := allocations,
          calls := calls ++ [mp_call.log_map_error map_id
            "Memory Allocation Error: Failed to allocate local_normal_map_pixels."] }
      else
        let local_normal_map_pixels :=
          copy_array input_pixel_pointer (u32 (width * height)) pixel_zero
        match apply_mask env map_id width height is_use_mask is_invert_mask
            local_normal_map_pixels calls allocations with
        | Sum.inl failed => failed
        | Sum.inr (local_normal_map_pixels, calls, allocations) =>
          let calls := calls ++ [mp_call.set_map_progress map_id 50]
          let count_i := u32 (width * height)
          let local_normal_map_pixels :=
            (List.range count_i).foldl (convert_step sqrtf intensity) local_normal_map_pixels
          let calls := calls ++ [mp_call.set_map_progress map_id 75, mp_call.is_cancel_process]
          if env.cancel 0 then
            { result := false, allocations := allocations, calls := calls }
          else
            let create_info : map_create_info_s α :=
              { width := width, height := height, is_grayscale := false, is_sRGB := false,
                tile_type := tile_type,
                coord_system :=
                  MAP_COORDSYS_X_POS_RIGHT ||| MAP_COORDSYS_Y_POS_DOWN ||| MAP_COORDSYS_Z_POS_NEAR,
                pixel_array := local_normal_map_pixels }
            let calls := calls ++ [mp_call.create_map map_id create_info]
            if !env.create_map then
              { result := false, allocations := allocations,
                calls := calls ++ [mp_call.log_map_error map_id
                  "Failed to create map with mp_create_map()."] }
            else
              { result := true, allocations := allocations,
                calls := calls ++ [mp_call.set_map_progress map_id 100] }

end map_color_to_ts_normal

/-! ## source_ts_normal -/

namespace source_ts_normal

open map_plugin_core

/-- Everything outside the plugin that `on_process` depends on: the answers of
the host queries, whether the allocation succeeds, and the answer of
`mp_create_map`. -/
structure source_env (α : Type) where
  thread_limit : Nat
  is_source_grayscale : Bool
  source_width : Nat
  source_height : Nat
  is_source_rasterized : Bool
  property_list : Nat → Nat
  property_coordsys : Nat → Nat
  slider : Nat → Int
  source_pixel_array : List (pixel_64_s α)
  cancel : Nat → Bool
  alloc_local_normal_map_pixels : Bool
  create_map : Bool

/-- The pixel a default-constructed `pixel_64_s` holds (four zero halves). -/
def pixel_zero {α : Type} [LinearOrderedField α] : pixel_64_s α :=
  { r := 0, g := 0, b := 0, a := 0 }

/-- Body of the loop for rasterized pixels (source_ts_normal.cpp:358-366). -/
def rasterized_step {α : Type} [LinearOrderedField α] (sqrtf : α → α) (intensity : α)
    (px : List (pixel_64_s α)) (i : Nat) : List (pixel_64_s α) :=
  let p := px.getD i pixel_zero
  let v3_0 : vector_3_s α :=
    { x := (p.r * 2 - 1) * intensity, y := (p.g * 2 - 1) * intensity, z := p.b * 2 - 1 }
  let v3_0 := normalize_vector sqrtf v3_0
  px.set i { p with r := v3_0.x, g := v3_0.y, b := v3_0.z }

/-- Body of the loop for pixels in vector format (source_ts_normal.cpp:377-385). -/
def vector_step {α : Type} [LinearOrderedField α] (sqrtf : α → α) (intensity : α)
    (px : List (pixel_64_s α)) (i : Nat) : List (pixel_64_s α) :=
  let p := px.getD i pixel_zero
  let v3_0 : vector_3_s α := { x := p.r * intensity, y := p.g * intensity, z := p.b }
  let v3_0 := normalize_vector sqrtf v3_0
  px.set i { p with r := v3_0.x, g := v3_0.y, b := v3_0.z }

/-- Process plugin - called when plugin is asked by ShaderMap to process
Source Map Pixels (`on_process`, source_ts_normal.cpp:275). -/
def on_process {α : Type} [LinearOrderedField α] (sqrtf : α → α) (env : source_env α)
    (map_id : Nat) : map_result α :=
  let calls : List (mp_call α) :=
    [mp_call.set_map_progress map_id 0, mp_call.is_source_grayscale map_id]
  if env.is_source_grayscale then
    { result := false, allocations := [],
      calls := calls ++ [mp_call.log_map_error map_id
        "Invalid source format. Grayscale images are not allowed."] }
  else
    let width := env.source_width
    let height := env.source_height
    let calls := calls ++ [mp_call.get_source_width map_id, mp_call.get_source_height map_id]
    if width = 0 ∨ height = 0 then
      { result := false, allocations := [],
        calls := calls ++ [mp_call.log_map_error map_id
          "Invalid source size. Width or height is zero."] }
    else
      let is_rasterized := env.is_source_rasterized
      let thread_limit := env.thread_limit
      let tile_type := env.property_list 0
      let coord_system := env.property_coordsys 1
      let intensity : α := (env.slider 2 : α) / 100
      let calls := calls ++
        [mp_call.is_source_rasterized map_id, mp_call.get_map_thread_limit,
         mp_call.get_property_list map_id 0, mp_call.get_property_coordsys map_id 1,
         mp_call.get_property_slider map_id 2]
      if !env.alloc_local_normal_map_pixels then
        { result := false, allocations := [env.alloc_local_normal_map_pixels],
          calls := calls ++ [mp_call.log_map_error map_id
            "Memory Allocation Error: Failed to allocate local_normal_map_pixels."] }
      else
        let calls := calls ++ [mp_call.get_source_pixel_array map_id]
        let local_normal_map_pixels :=
          copy_array env.source_pixel_array (u32 (width * height)) pixel_zero
        let calls := calls ++ [mp_call.set_map_progress map_id 25]
        let count_i := u32 (width * height)
        let local_normal_map_pixels :=
          if is_rasterized then
            (List.range count_i).foldl (rasterized_step sqrtf intensity) local_normal_map_pixels
          else
            (List.range count_i).foldl (vector_step sqrtf intensity) local_normal_map_pixels
        let calls := calls ++ [mp_call.set_map_progress map_id 75, mp_call.is_cancel_process]
        if env.cancel 0 then
          { result := false, allocations := [env.alloc_local_normal_map_pixels], calls := calls }
        else
          let create_info : map_create_info_s α :=
            { width := width, height := height, is_grayscale := false, is_sRGB := false,
              tile_type := tile_type, coord_system := coord_system,
              pixel_array := local_normal_map_pixels }
          let calls := calls ++ [mp_call.create_map map_id create_info]
          if !env.create_map then
            { result := false, allocations := [env.alloc_local_normal_map_pixels],
              calls := calls ++ [mp_call.log_map_error map_id
                "Failed to create map with mp_create_map()."] }
          else
            { result := true, allocations := [env.alloc_local_normal_map_pixels],
              calls := calls ++ [mp_call.set_map_progress map_id 100] }

end source_ts_normal

/-! ## Concrete inputs

Small inputs at which the theorems below are instantiated.  The geometry
inputs read floats over the integers, the pixel inputs over the rationals. -/

namespace geo_custom

/-- The claim's short reads: the file ends before the three counts, or before
the vertex, uv and index arrays that the counts announce (six words per
vertex, two per uv, one per index). -/
def file_ends_early (file : List Nat) : Bool :=
  decide (file.length < 3) ||
  decide (file.length < 3 + 6 * file.getD 0 0 + 2 * file.getD 1 0 + file.getD 2 0)

/-- A host that asks for RENDER geometry, a complete CUSTOM file with one
vertex, one uv and one group of seven indices, and allocations and host calls
that all succeed. -/
def example_env : geo_env Int :=
  { geometry_type := 0
    file := some [1, 1, 7, 1, 2, 3, 4, 5, 6, 7, 8, 0, 0, 0, 0, 0, 0, 0]
    as_float := Int.ofNat
    alloc_vertex_array := true
    alloc_uv_array := true
    alloc_index_array := true
    alloc_uv_channels_array := true
    alloc_uv_channels_array_0 := true
    alloc_uv_indices_array := true
    alloc_uv_indices_array_0 := true
    alloc_uv_count_array := true
    vector_alloc := fun _ => true
    create_render_geometry := true
    create_node_geometry := true
    uninit_vertex_count := 0
    uninit_uv_count := 0
    uninit_index_count := 0
    uninit_vertex_array := fun _ => 0
    uninit_uv_array := fun _ => 0
    uninit_index_array := fun _ => 0 }

/-- The file of `example_env` cut off one word early: the counts announce 18
words and the file holds 17, so the read of the index array delivers 6 of the
7 items requested. -/
def truncated_file : List Nat := [1, 1, 7, 1, 2, 3, 4, 5, 6, 7, 8, 0, 0, 0, 0, 0, 0]

end geo_custom

namespace filter_rgba

/-- A host with the Red slider at 100, the mask in use, a 1 x 1 mask and no
cancel request. -/
def example_env : filter_env :=
  { thread_limit := 1
    slider := fun i => if i = 0 then 100 else 0
    checkbox := fun i => decide (i = 4)
    mask_width := 1
    mask_height := 1
    mask_pixel_array := some [65535]
    cancel := fun _ => false
    alloc_local_mask_pixel_array := true
    alloc_resized_pixel_array := true }

/-- A 1 x 1 RGBA map. -/
def example_data : filter_plugin_core.process_data_s Rat :=
  { map_id := 1
    filter_position := 0
    is_grayscale := false
    is_sRGB := true
    is_normal_map := false
    map_width := 1
    map_height := 1
    map_tile_type := 0
    map_coordinate_system := 0
    map_pixel_data := [0, 0, 0, 1] }

/-- A 65536 x 65536 RGBA map in which every channel of every pixel holds 2:
its pixel count is `2 ^ 32`, one more than an `unsigned int` can hold. -/
def wide_data : filter_plugin_core.process_data_s Rat :=
  { example_data with
    map_width := 65536
    map_height := 65536
    map_pixel_data := List.replicate (4 * (65536 * 65536)) 2 }

end filter_rgba

namespace map_color_to_ts_normal

/-- A host with a 1 x 1 RGBA input, intensity 100, no mask and no cancel
request. -/
def example_env : map_env Rat :=
  { thread_limit := 1
    is_input_grayscale := false
    input_width := 1
    input_height := 1
    slider := fun _ => 100
    checkbox := fun _ => false
    input_tile_type := 0
    input_pixel_array := [{ r := 1 / 2, g := 1 / 2, b := 1, a := 1 }]
    mask_width := 1
    mask_height := 1
    mask_pixel_array := none
    cancel := fun _ => false
    alloc_local_normal_map_pixels := true
    alloc_local_mask_pixel_array := true
    alloc_resized_pixel_array := true
    create_map := true }

end map_color_to_ts_normal

namespace source_ts_normal

/-- A host with a 1 x 1 RGBA source in vector format, intensity 100 and no
cancel request. -/
def example_env : source_env Rat :=
  { thread_limit := 1
    is_source_grayscale := false
    source_width := 1
    source_height := 1
    is_source_rasterized := false
    property_list := fun _ => 0
    property_coordsys := fun _ => 26
    slider := fun _ => 100
    source_pixel_array := [{ r := 0, g := 0, b := 1, a := 1 }]
    cancel := fun _ => false
    alloc_local_normal_map_pixels := true
    create_map := true }

end source_ts_normal

/-! ## Cancel polls -/

/-- Whether a call of the filter plugin is a poll `fp_is_cancel_process`. -/
def filter_plugin_core.fp_call.is_cancel_poll : filter_plugin_core.fp_call → Bool
  | .is_cancel_process => true
  | _ => false

/-- Whether a call of a map plugin is a poll `mp_is_cancel_process`. -/
def map_plugin_core.mp_call.is_cancel_poll {α : Type} : map_plugin_core.mp_call α → Bool
  | .is_cancel_process => true
  | _ => false

namespace geo_custom

/-- The vertex array of a one-triangle CUSTOM file: three vertices with the
positions `(10,11,12)`, `(20,21,22)`, `(30,31,32)` and the normals
`(13,14,15)`, `(23,24,25)`, `(33,34,35)`.  All words differ, so every field of
what is sent can be told apart. -/
def triangle_vertices : List Nat :=
  [10, 11, 12, 13, 14, 15, 20, 21, 22, 23, 24, 25, 30, 31, 32, 33, 34, 35]

/-- The uv array of the one-triangle file: `(40,41)`, `(50,51)`, `(60,61)`. -/
def triangle_uvs : List Nat := [40, 41, 50, 51, 60, 61]

/-- The index array of the one-triangle file: vertex indices 2, 0, 1, uv
indices 1, 2, 0, and 99 as the seventh index of the group. -/
def triangle_indices : List Nat := [2, 0, 1, 1, 2, 0, 99]

/-- The example host with the one-triangle file, asking for RENDER geometry. -/
def triangle_env : geo_env Int :=
  { example_env with
    file := some (3 :: 3 :: 7 :: (triangle_vertices ++ triangle_uvs ++ triangle_indices)) }

/-- The example host with the one-triangle file, asking for NODE geometry. -/
def triangle_node_env : geo_env Int :=
  { triangle_env with geometry_type := 1 }

end geo_custom

/-! ## Theorems -/

/-- C1: `clamp_f v` is 0 when `v < 0`, 1 when `v > 1`, and `v` itself in every
other case. -/
theorem clamp_f_cases {α : Type} [LinearOrderedField α] (v : α) :
    (v < 0 → filter_rgba.clamp_f v = 0) ∧
    (v > 1 → filter_rgba.clamp_f v = 1) ∧
    (¬ v < 0 → ¬ v > 1 → filter_rgba.clamp_f v = v) := by
  refine ⟨?_, ?_, ?_⟩
  · intro h
    simp [filter_rgba.clamp_f, h]
  · intro h
    have h0 : ¬ v < 0 := not_lt.mpr (le_trans zero_le_one h.le)
    simp [filter_rgba.clamp_f, h0, h]
  · intro h0 h1
    simp only [filter_rgba.clamp_f, if_neg h0, if_neg h1]

theorem unit_of_div_length (v : vector_3_s ℝ) (h : vector_length Real.sqrt v ≠ 0) :
    vector_length_sq
      ({ x := v.x / vector_length Real.sqrt v,
         y := v.y / vector_length Real.sqrt v,
         z := v.z / vector_length Real.sqrt v } : vector_3_s ℝ) = 1 := by
  have hnn : 0 ≤ v.x * v.x + v.y * v.y + v.z * v.z := by nlinarith [sq_nonneg v.x, sq_nonneg v.y, sq_nonneg v.z]
  have hsq : vector_length Real.sqrt v ^ 2 = v.x * v.x + v.y * v.y + v.z * v.z := by
    unfold vector_length
    exact Real.sq_sqrt hnn
  unfold vector_length_sq
  simp only [div_pow]
  rw [← add_div, ← add_div, hsq]
  have hne : v.x * v.x + v.y * v.y + v.z * v.z ≠ 0 := by
    rw [← hsq]; exact pow_ne_zero 2 h
  rw [div_eq_one_iff_eq hne]
  ring

/-- C2: over the reals both copies of `normalize_vector` turn a vector of
length zero into the zero vector, and any other vector into the vector divided
by its length, which is a unit vector. -/
theorem normalize_vector_contract (v : vector_3_s ℝ) :
    normalizes (map_color_to_ts_normal.normalize_vector Real.sqrt) v ∧
    normalizes (source_ts_normal.normalize_vector Real.sqrt) v := by
  have hnn : 0 ≤ vector_length Real.sqrt v := Real.sqrt_nonneg _
  have key : ∀ f : vector_3_s ℝ → vector_3_s ℝ,
      (f v = if vector_length Real.sqrt v > 0 then
              { x := v.x / vector_length Real.sqrt v,
                y := v.y / vector_length Real.sqrt v,
                z := v.z / vector_length Real.sqrt v }
             else { x := 0, y := 0, z := 0 }) → normalizes f v := by
    intro f hf
    constructor
    · intro h0
      rw [hf, if_neg (by rw [h0]; exact lt_irrefl 0)]
    · intro hne
      have hpos : vector_length Real.sqrt v > 0 := lt_of_le_of_ne hnn (Ne.symm hne)
      rw [hf, if_pos hpos]
      exact ⟨rfl, unit_of_div_length v hne⟩
  exact ⟨key _ rfl, key _ rfl⟩

/-- C2 at the vector (0, 0, 2), whose length is 2: both copies return the unit
vector (0, 0, 1) = (0/2, 0/2, 2/2). -/
theorem normalize_vector_contract_witness :
    vector_length_sq (map_color_to_ts_normal.normalize_vector Real.sqrt
      ({ x := 0, y := 0, z := 2 } : vector_3_s ℝ)) = 1 ∧
    vector_length_sq (source_ts_normal.normalize_vector Real.sqrt
      ({ x := 0, y := 0, z := 2 } : vector_3_s ℝ)) = 1 := by
  have hlen : vector_length Real.sqrt ({ x := 0, y := 0, z := 2 } : vector_3_s ℝ) ≠ 0 := by
    have h4 : (0:ℝ) * 0 + 0 * 0 + 2 * 2 = 2 ^ 2 := by norm_num
    simp only [vector_length, h4]
    rw [Real.sqrt_sq (by norm_num)]
    norm_num
  have h := normalize_vector_contract ({ x := 0, y := 0, z := 2 } : vector_3_s ℝ)
  exact ⟨(h.1.2 hlen).2, (h.2.2 hlen).2⟩

theorem length_resize_line (f : Nat → Nat) (d : Nat) :
    ∀ n x, (resize_line f d n x).length = n := by
  intro n
  induction n with
  | zero => intro x; rfl
  | succ n ih => intro x; simp [resize_line, ih]

theorem getD_resize_line (f : Nat → Nat) (d : Nat) :
    ∀ n x i, i < n → x + i * d < 2 ^ 32 →
      (resize_line f d n x).getD i 0 = f ((x + i * d) >>> 16) := by
  intro n
  induction n with
  | zero => intro x i hi; omega
  | succ n ih =>
    intro x i hi hb
    cases i with
    | zero => simp [resize_line]
    | succ i =>
      have hx : u32 (x + d) = x + d := by
        unfold u32
        apply Nat.mod_eq_of_lt
        have : x + d ≤ x + (i + 1) * d := by
          have : d ≤ (i + 1) * d := Nat.le_mul_of_pos_left d (Nat.succ_pos i)
          omega
        omega
      have hb2 : (x + d) + i * d < 2 ^ 32 := by
        have : (i + 1) * d = i * d + d := by ring
        omega
      simp only [resize_line, List.getD_cons_succ, hx]
      have e : x + d + i * d = x + (i + 1) * d := by ring
      rw [ih (x + d) i (by omega) hb2, e]

theorem length_resize_lines (m : List Nat) (W w xd yd : Nat) :
    ∀ n y, (resize_lines m W w xd yd n y).length = n * w := by
  intro n
  induction n with
  | zero => intro y; simp [resize_lines]
  | succ n ih =>
    intro y
    simp only [resize_lines, List.length_append, length_resize_line, ih]
    rw [Nat.succ_mul, Nat.add_comm]

theorem getD_resize_lines (m : List Nat) (W w xd yd : Nat) :
    ∀ n y j i, j < n → i < w → y + j * yd < 2 ^ 32 → i * xd < 2 ^ 32 →
      (resize_lines m W w xd yd n y).getD (j * w + i) 0 =
        m.getD (u32 (((y + j * yd) >>> 16) * W) + ((i * xd) >>> 16)) 0 := by
  intro n
  induction n with
  | zero => intro y j i hj; omega
  | succ n ih =>
    intro y j i hj hi hy hx
    cases j with
    | zero =>
      simp only [resize_lines, Nat.zero_mul, Nat.zero_add, Nat.add_zero]
      rw [List.getD_append _ _ _ _ (by rw [length_resize_line]; exact hi)]
      rw [getD_resize_line _ _ _ _ _ hi (by omega)]
      simp
    | succ j =>
      have hy1 : u32 (y + yd) = y + yd := by
        unfold u32
        apply Nat.mod_eq_of_lt
        have : yd ≤ (j + 1) * yd := Nat.le_mul_of_pos_left yd (Nat.succ_pos j)
        omega
      have hy2 : (y + yd) + j * yd < 2 ^ 32 := by
        have : (j + 1) * yd = j * yd + yd := by ring
        omega
      have hidx : (j + 1) * w + i = w + (j * w + i) := by ring
      simp only [resize_lines, hy1]
      rw [hidx, List.getD_append_right _ _ _ _ (by rw [length_resize_line]; omega)]
      rw [length_resize_line]
      have : w + (j * w + i) - w = j * w + i := by omega
      have e : y + yd + j * yd = y + (j + 1) * yd := by ring
      rw [this, ih (y + yd) j i (by omega) hi hy2 hx, e]

theorem u32_shl16 (W : Nat) (h : W < 65536) : u32 (W <<< 16) = W * 65536 := by
  unfold u32
  rw [Nat.shiftLeft_eq]
  apply Nat.mod_eq_of_lt
  norm_num
  omega

theorem delta_upscale (W k : Nat) (hW : 0 < W) :
    W * 65536 / (k * W) = 65536 / k := by
  rw [Nat.mul_comm W 65536]
  exact Nat.mul_div_mul_right 65536 k hW

theorem last_sample_upscale (W k : Nat) (hW : 0 < W) (hk : 0 < k) (hw : k * W ≤ 65536) :
    ((k * W - 1) * (65536 / k)) >>> 16 = W - 1 := by
  obtain ⟨W', rfl⟩ : ∃ W', W = W' + 1 := ⟨W - 1, by omega⟩
  obtain ⟨k', rfl⟩ : ∃ k', k = k' + 1 := ⟨k - 1, by omega⟩
  have h1 : (k' + 1) * (65536 / (k' + 1)) + 65536 % (k' + 1) = 65536 := Nat.div_add_mod _ _
  have h3 : 65536 % (k' + 1) ≤ k' := Nat.le_of_lt_succ (Nat.mod_lt _ (Nat.succ_pos k'))
  have h2 : W' + 1 ≤ 65536 / (k' + 1) := by
    rw [Nat.le_div_iff_mul_le (Nat.succ_pos k')]
    rw [Nat.mul_comm]; exact hw
  generalize 65536 / (k' + 1) = d at h1 h2 ⊢
  generalize 65536 % (k' + 1) = r at h1 h3
  have h4 : r * (W' + 1) ≤ k' * d := Nat.mul_le_mul h3 h2
  have e : (k' + 1) * (W' + 1) - 1 = k' * W' + k' + W' := by
    have : (k' + 1) * (W' + 1) = k' * W' + k' + W' + 1 := by ring
    omega
  rw [e, Nat.shiftRight_eq_div_pow]
  simp only [Nat.add_sub_cancel]
  apply Nat.div_eq_of_lt_le
  · have : W' * 2 ^ 16 = W' * ((k' + 1) * d + r) := by rw [h1]; norm_num
    rw [this]
    nlinarith
  · have : (W' + 1) * 2 ^ 16 = (W' + 1) * ((k' + 1) * d + r) := by rw [h1]; norm_num
    rw [this]
    nlinarith

/-- Beyond the 16-bit range the fixed-point step is too coarse: enlarging a
line of 43692 pixels by 3 reads source column 43690, not the last column
43691, for the last output pixel. -/
theorem resize_line_last_sample_large :
    (resize_line (fun k => k) (u32 (43692 <<< 16) / (3 * 43692)) (3 * 43692) 0).getD
      (3 * 43692 - 1) 0 = 43690 := by
  have hd : u32 (43692 <<< 16) / (3 * 43692) = 21845 := by
    rw [u32_shl16 43692 (by norm_num)]
  rw [hd, getD_resize_line _ _ _ _ _ (by norm_num) (by norm_num)]
  simp only [Nat.shiftRight_eq_div_pow]

theorem getElem?_eq_of_getD {l m : List Nat} {i j : Nat} (hi : i < l.length)
    (hj : j < m.length) (h : l.getD i 0 = m.getD j 0) : l[i]? = m[j]? := by
  rw [List.getD_eq_getElem _ _ hi, List.getD_eq_getElem _ _ hj] at h
  rw [List.getElem?_eq_getElem hi, List.getElem?_eq_getElem hj, h]

/-- A sample of the nearest neighbour loops: output pixel `(i, j)` is source
pixel `(si, sj)` when the 16.16 fixed-point positions `i * xd` and `j * yd`
have integer parts `si` and `sj`. -/
theorem resize_lines_sample (m : List Nat) (W H w h xd yd i j si sj : Nat)
    (hlen : m.length = W * H)
    (hi : i < w) (hj : j < h) (hx : i * xd < 2 ^ 32) (hy : j * yd < 2 ^ 32)
    (hsi : (i * xd) >>> 16 = si) (hsj : (j * yd) >>> 16 = sj)
    (hsiW : si < W) (hsjH : sj < H) (hWH : W * H < 2 ^ 32) :
    (resize_lines m W w xd yd h 0)[j * w + i]? = m[sj * W + si]? := by
  have hsrc : sj * W + si < W * H := by
    have : (sj + 1) * W ≤ H * W := Nat.mul_le_mul_right W hsjH
    have e1 : (sj + 1) * W = sj * W + W := by ring
    have e2 : H * W = W * H := Nat.mul_comm H W
    omega
  have hdst : j * w + i < h * w := by
    have : (j + 1) * w ≤ h * w := Nat.mul_le_mul_right w hj
    have e1 : (j + 1) * w = j * w + w := by ring
    omega
  apply getElem?_eq_of_getD
  · rw [length_resize_lines]; exact hdst
  · rw [hlen]; exact hsrc
  · rw [getD_resize_lines m W w xd yd h 0 j i hj hi (by omega) hx]
    rw [Nat.zero_add, hsi, hsj]
    have : u32 (sj * W) = sj * W := by
      unfold u32
      apply Nat.mod_eq_of_lt
      omega
    rw [this]

/-- C3 (counterexample): shrinking the 2 x 1 mask `[1, 2]` to 1 x 1 (scaling
factor 2 in width, 1 in height) yields `[1]` in both copies, so the top-right
pixel of the result is 1 while the top-right pixel of the source is 2. -/
theorem resize_mask_pixels_downscale_corner :
    filter_rgba.resize_mask_pixels true [1, 2] 2 1 1 1 = some [1] ∧
    map_color_to_ts_normal.resize_mask_pixels true [1, 2] 2 1 1 1 = some [1] ∧
    ([1] : List Nat)[1 - 1]? ≠ ([1, 2] : List Nat)[2 - 1]? := by
  decide

/-- C3 (amended): when the mask is enlarged by whole factors `kx`, `ky` to a
size below 65536 in each dimension, the call does not take the early exit and
the allocation succeeds, both copies of `resize_mask_pixels` return an array of
`new_width * new_height` pixels whose four corner pixels are the four corner
pixels of the source mask. -/
theorem resize_mask_pixels_corners_upscale (mask : List Nat) (W H kx ky : Nat)
    (hW : 0 < W) (hH : 0 < H) (hkx : 0 < kx) (hky : 0 < ky)
    (hw : kx * W < 65536) (hh : ky * H < 65536)
    (hlen : mask.length = W * H)
    (hne : ¬ (W = kx * W ∧ H ≠ ky * H)) :
    ∃ R, filter_rgba.resize_mask_pixels true mask W H (kx * W) (ky * H) = some R ∧
      map_color_to_ts_normal.resize_mask_pixels true mask W H (kx * W) (ky * H) = some R ∧
      R.length = (kx * W) * (ky * H) ∧
      R[0]? = mask[0]? ∧
      R[kx * W - 1]? = mask[W - 1]? ∧
      R[(ky * H - 1) * (kx * W)]? = mask[(H - 1) * W]? ∧
      R[(ky * H) * (kx * W) - 1]? = mask[H * W - 1]? := by
  have hW1 : W ≤ kx * W := Nat.le_mul_of_pos_left W hkx
  have hH1 : H ≤ ky * H := Nat.le_mul_of_pos_left H hky
  have hkx1 : kx ≤ kx * W := Nat.le_mul_of_pos_right kx hW
  have hky1 : ky ≤ ky * H := Nat.le_mul_of_pos_right ky hH
  have hxd : u32 (W <<< 16) / (kx * W) = 65536 / kx := by
    rw [u32_shl16 W (by omega), delta_upscale W kx hW]
  have hyd : u32 (H <<< 16) / (ky * H) = 65536 / ky := by
    rw [u32_shl16 H (by omega), delta_upscale H ky hH]
  have hxdle : 65536 / kx ≤ 65536 := Nat.div_le_self _ _
  have hydle : 65536 / ky ≤ 65536 := Nat.div_le_self _ _
  have hWH : W * H < 2 ^ 32 := by
    have : W * H < 65536 * 65536 := Nat.mul_lt_mul'' (by omega) (by omega)
    norm_num at this ⊢
    exact this
  have hbx : ∀ i, i < kx * W → i * (65536 / kx) < 2 ^ 32 := by
    intro i hi
    have : i * (65536 / kx) ≤ 65535 * 65536 :=
      Nat.mul_le_mul (by omega) hxdle
    norm_num at this ⊢
    omega
  have hby : ∀ j, j < ky * H → j * (65536 / ky) < 2 ^ 32 := by
    intro j hj
    have : j * (65536 / ky) ≤ 65535 * 65536 :=
      Nat.mul_le_mul (by omega) hydle
    norm_num at this ⊢
    omega
  have hx0 : (0 * (65536 / kx)) >>> 16 = 0 := by simp
  have hy0 : (0 * (65536 / ky)) >>> 16 = 0 := by simp
  have hxl := last_sample_upscale W kx hW hkx (by omega)
  have hyl := last_sample_upscale H ky hH hky (by omega)
  have hw0 : 0 < kx * W := by omega
  have hh0 : 0 < ky * H := by omega
  refine ⟨resize_lines mask W (kx * W) (65536 / kx) (65536 / ky) (ky * H) 0,
    ?_, ?_, ?_, ?_, ?_, ?_, ?_⟩
  · unfold filter_rgba.resize_mask_pixels
    rw [if_neg hne]
    simp only [Bool.not_true, Bool.false_eq_true, if_false, hxd, hyd]
  · unfold map_color_to_ts_normal.resize_mask_pixels
    rw [if_neg hne]
    simp only [Bool.not_true, Bool.false_eq_true, if_false, hxd, hyd]
  · rw [length_resize_lines, Nat.mul_comm]
  · have := resize_lines_sample mask W H (kx * W) (ky * H) _ _ 0 0 0 0 hlen hw0 hh0
      (hbx 0 hw0) (hby 0 hh0) hx0 hy0 hW hH hWH
    simpa using this
  · have := resize_lines_sample mask W H (kx * W) (ky * H) _ _ (kx * W - 1) 0 (W - 1) 0 hlen
      (by omega) hh0 (hbx _ (by omega)) (hby 0 hh0) hxl hy0 (by omega) hH hWH
    simpa using this
  · have := resize_lines_sample mask W H (kx * W) (ky * H) _ _ 0 (ky * H - 1) 0 (H - 1) hlen
      hw0 (by omega) (hbx 0 hw0) (hby _ (by omega)) hx0 hyl hW (by omega) hWH
    simpa using this
  · have := resize_lines_sample mask W H (kx * W) (ky * H) _ _ (kx * W - 1) (ky * H - 1)
      (W - 1) (H - 1) hlen (by omega) (by omega) (hbx _ (by omega)) (hby _ (by omega))
      hxl hyl (by omega) (by omega) hWH
    have e1 : (ky * H - 1) * (kx * W) + (kx * W - 1) = ky * H * (kx * W) - 1 := by
      obtain ⟨a, ha⟩ : ∃ a, ky * H = a + 1 := ⟨ky * H - 1, by omega⟩
      rw [ha, Nat.add_sub_cancel, Nat.succ_mul]
      omega
    have e2 : (H - 1) * W + (W - 1) = H * W - 1 := by
      obtain ⟨a, ha⟩ : ∃ a, H = a + 1 := ⟨H - 1, by omega⟩
      rw [ha, Nat.add_sub_cancel, Nat.succ_mul]
      omega
    rw [e1, e2] at this
    exact this

/-- C3 (amended) at the 2 x 2 mask `[1, 2, 3, 4]` enlarged to 4 x 4. -/
theorem resize_mask_pixels_corners_upscale_witness :
    ∃ R, filter_rgba.resize_mask_pixels true [1, 2, 3, 4] 2 2 (2 * 2) (2 * 2) = some R ∧
      map_color_to_ts_normal.resize_mask_pixels true [1, 2, 3, 4] 2 2 (2 * 2) (2 * 2)
        = some R ∧
      R.length = (2 * 2) * (2 * 2) ∧
      R[0]? = ([1, 2, 3, 4] : List Nat)[0]? ∧
      R[2 * 2 - 1]? = ([1, 2, 3, 4] : List Nat)[2 - 1]? ∧
      R[(2 * 2 - 1) * (2 * 2)]? = ([1, 2, 3, 4] : List Nat)[(2 - 1) * 2]? ∧
      R[(2 * 2) * (2 * 2) - 1]? = ([1, 2, 3, 4] : List Nat)[2 * 2 - 1]? :=
  resize_mask_pixels_corners_upscale [1, 2, 3, 4] 2 2 2 2 (by decide) (by decide) (by decide)
    (by decide) (by decide) (by decide) (by decide) (by decide)

/-- When the widths differ the early exit is not taken: with a successful
allocation both copies of `resize_mask_pixels` return a new array of
`new_height * new_width` pixels. -/
theorem resize_mask_pixels_length_of_width_ne (mask : List Nat)
    (mask_width mask_height new_width new_height : Nat) (h : mask_width ≠ new_width) :
    ∃ R, filter_rgba.resize_mask_pixels true mask mask_width mask_height new_width new_height
        = some R ∧
      map_color_to_ts_normal.resize_mask_pixels true mask mask_width mask_height
        new_width new_height = some R ∧
      R.length = new_height * new_width := by
  refine ⟨_, ?_, ?_, length_resize_lines mask mask_width new_width
    (u32 (mask_width <<< 16) / new_width) (u32 (mask_height <<< 16) / new_height)
    new_height 0⟩
  · unfold filter_rgba.resize_mask_pixels
    rw [if_neg (fun hc => h hc.1)]
    rfl
  · unfold map_color_to_ts_normal.resize_mask_pixels
    rw [if_neg (fun hc => h hc.1)]
    rfl

/-- C4 (failing input): for the 1 x 1 mask `[7]` and the target size 1 x 2
(same width, other height) both copies of `resize_mask_pixels` take the early
exit and return the one-pixel array they were given, not an array of
`1 * 2` pixels. -/
theorem resize_mask_pixels_same_width_early_exit :
    filter_rgba.resize_mask_pixels true [7] 1 1 1 2 = some [7] ∧
    map_color_to_ts_normal.resize_mask_pixels true [7] 1 1 1 2 = some [7] ∧
    ([7] : List Nat).length ≠ 1 * 2 := by
  decide

/-- C5 (counterexample): for the host array that holds `i` in slot `i`, the map
core's `mp_set_plugin_info` is 200, not the content of slot 100. -/
theorem mp_set_plugin_info_not_slot_100 :
    map_plugin_core.map_api.mp_set_plugin_info
      ( map_plugin_core.plugin_initialize (fun i => i)) ≠ (fun i : Nat => i) 100 := by
  decide

/-- C5 (amended): `plugin_initialize` takes the filter core's
`fp_set_plugin_info` from slot 100 and the map core's `mp_set_plugin_info`
from slot 200 of the host's function-pointer array. -/
theorem set_plugin_info_slots {α : Type} (function_pointer_array : Nat → α) :
    filter_plugin_core.filter_api.fp_set_plugin_info
      ( filter_plugin_core.plugin_initialize function_pointer_array)
        = function_pointer_array 100 ∧
    map_plugin_core.map_api.mp_set_plugin_info
      ( map_plugin_core.plugin_initialize function_pointer_array)
        = function_pointer_array 200 :=
  ⟨rfl, rfl⟩

/-- C6 (counterexample): for the host array that holds `i` in slot `i`, the
filter core's `fp_get_map_thread_limit` is 403 and the map core's
`mp_get_map_thread_limit` is 704; neither is the content of slot 400. -/
theorem get_map_thread_limit_not_slot_400 :
    filter_plugin_core.filter_api.fp_get_map_thread_limit
      ( filter_plugin_core.plugin_initialize (fun i => i)) ≠ (fun i : Nat => i) 400 ∧
    map_plugin_core.map_api.mp_get_map_thread_limit
      ( map_plugin_core.plugin_initialize (fun i => i)) ≠ (fun i : Nat => i) 400 := by
  decide

/-- C6 (amended): `plugin_initialize` takes the filter core's
`fp_get_map_thread_limit` from slot 403 and the map core's
`mp_get_map_thread_limit` from slot 704; slot 400 is the filter core's
`fp_is_cancel_process` and the map core's `mp_get_source_width`. -/
theorem get_map_thread_limit_slots {α : Type} (function_pointer_array : Nat → α) :
    filter_plugin_core.filter_api.fp_get_map_thread_limit
      ( filter_plugin_core.plugin_initialize function_pointer_array)
        = function_pointer_array 403 ∧
    map_plugin_core.map_api.mp_get_map_thread_limit
      ( map_plugin_core.plugin_initialize function_pointer_array)
        = function_pointer_array 704 ∧
    filter_plugin_core.filter_api.fp_is_cancel_process
      ( filter_plugin_core.plugin_initialize function_pointer_array)
        = function_pointer_array 400 ∧
    map_plugin_core.map_api.mp_get_source_width
      ( map_plugin_core.plugin_initialize function_pointer_array)
        = function_pointer_array 400 :=
  ⟨rfl, rfl, rfl, rfl⟩

/-- C7: in the filter, geometry and map cores `plugin_initialize` takes the
begin-initialize callback from slot 0 of the host's function-pointer array,
whatever the array. -/
theorem begin_initialize_slot_0 {α : Type} (function_pointer_array : Nat → α) :
    filter_plugin_core.filter_api.fp_begin_initialize
      ( filter_plugin_core.plugin_initialize function_pointer_array)
        = function_pointer_array 0 ∧
    geo_plugin_core.geo_api.gp_begin_initialize
      ( geo_plugin_core.plugin_initialize function_pointer_array)
        = function_pointer_array 0 ∧
    map_plugin_core.map_api.mp_begin_initialize
      ( map_plugin_core.plugin_initialize function_pointer_array)
        = function_pointer_array 0 :=
  ⟨rfl, rfl, rfl⟩

/-! ### Allocation failures (C8) -/

theorem filter_resize_none_iff (ok : Bool) (m : List Nat) (W H w h : Nat) :
    filter_rgba.resize_mask_pixels ok m W H w h = none ↔
      false ∈ filter_rgba.resize_mask_pixels_allocations ok W H w h := by
  unfold filter_rgba.resize_mask_pixels filter_rgba.resize_mask_pixels_allocations
  split_ifs <;> cases ok <;> simp_all

theorem map_resize_none_iff (ok : Bool) (m : List Nat) (W H w h : Nat) :
    map_color_to_ts_normal.resize_mask_pixels ok m W H w h = none ↔
      false ∈ map_color_to_ts_normal.resize_mask_pixels_allocations ok W H w h := by
  unfold map_color_to_ts_normal.resize_mask_pixels
    map_color_to_ts_normal.resize_mask_pixels_allocations
  split_ifs <;> cases ok <;> simp_all

theorem filter_get_mask_inl {α : Type} (env : filter_rgba.filter_env)
    (data : filter_plugin_core.process_data_s α) (u i : Bool)
    (calls : List filter_plugin_core.fp_call) (f : filter_rgba.filter_result α)
    (h : filter_rgba.get_mask env data u i calls = Sum.inl f) :
    f.result = false ∧ f.calls.any filter_plugin_core.fp_call.is_log = true := by
  unfold filter_rgba.get_mask at h
  split at h
  · split at h
    · cases h
    · dsimp only at h
      split at h
      · cases h
        simp [filter_plugin_core.fp_call.is_log]
      · split at h
        · cases h
          simp [filter_plugin_core.fp_call.is_log]
        · split at h <;> cases h
  · cases h

theorem filter_get_mask_inr {α : Type} (env : filter_rgba.filter_env)
    (data : filter_plugin_core.process_data_s α) (u i : Bool)
    (calls : List filter_plugin_core.fp_call)
    (r : Bool × Option (List Nat) × List filter_plugin_core.fp_call × List Bool)
    (h : filter_rgba.get_mask (α := α) env data u i calls = Sum.inr r) :
    false ∉ r.2.2.2 := by
  unfold filter_rgba.get_mask at h
  split at h
  · split at h
    · cases h
      simp
    · dsimp only at h
      split at h
      · cases h
      · rename_i hal
        split at h
        · cases h
        · rename_i l hres
          have hno : false ∉
              (if env.mask_width ≠ data.map_width ∨ env.mask_height ≠ data.map_height then
                filter_rgba.resize_mask_pixels_allocations env.alloc_resized_pixel_array
                  env.mask_width env.mask_height data.map_width data.map_height
              else []) := by
            split_ifs at hres ⊢
            · intro hmem
              rw [← filter_resize_none_iff] at hmem
              rw [hmem] at hres
              cases hres
            · simp
          split at h <;> cases h <;> simp_all
  · cases h
    simp

theorem filter_alloc_failure {α : Type} [LinearOrderedField α] (env : filter_rgba.filter_env)
    (data : filter_plugin_core.process_data_s α)
    (h : false ∈ (filter_rgba.on_process env data).allocations) :
    (filter_rgba.on_process env data).result = false ∧
    (filter_rgba.on_process env data).calls.any filter_plugin_core.fp_call.is_log = true := by
  unfold filter_rgba.on_process at h ⊢
  dsimp only at h ⊢
  split
  · rw [if_pos (by assumption)] at h
    simp at h
  · rename_i hn
    rw [if_neg hn] at h
    split
    · rw [if_pos (by assumption)] at h
      simp at h
    · rename_i hz
      rw [if_neg hz] at h
      split
      · rename_i f hgm
        exact filter_get_mask_inl env data _ _ _ f hgm
      · rename_i u m c al hgm
        rw [hgm] at h
        have hno := filter_get_mask_inr env data _ _ _ _ hgm
        dsimp only at h hno
        split_ifs at h <;> exact absurd h hno

theorem map_apply_mask_inl {α : Type} [LinearOrderedField α]
    (env : map_color_to_ts_normal.map_env α) (map_id width height : Nat) (u i : Bool)
    (px : List (pixel_64_s α)) (calls : List (map_plugin_core.mp_call α))
    (al : List Bool) (hcalls : calls.any map_plugin_core.mp_call.is_create = false)
    (f : map_plugin_core.map_result α)
    (h : map_color_to_ts_normal.apply_mask env map_id width height u i px calls al
      = Sum.inl f) :
    f.result = false ∧ f.calls.any map_plugin_core.mp_call.is_log = true ∧
    f.calls.any map_plugin_core.mp_call.is_create = false := by
  unfold map_color_to_ts_normal.apply_mask at h
  split at h
  · split at h
    · cases h
    · dsimp only at h
      split at h
      · cases h
        simp [map_plugin_core.mp_call.is_log, map_plugin_core.mp_call.is_create, hcalls]
      · split at h
        · cases h
          simp [map_plugin_core.mp_call.is_log, map_plugin_core.mp_call.is_create, hcalls]
        · cases h
  · cases h

theorem map_apply_mask_inr {α : Type} [LinearOrderedField α]
    (env : map_color_to_ts_normal.map_env α) (map_id width height : Nat) (u i : Bool)
    (px : List (pixel_64_s α)) (calls : List (map_plugin_core.mp_call α))
    (al : List Bool) (hal : false ∉ al)
    (r : List (pixel_64_s α) × List (map_plugin_core.mp_call α) × List Bool)
    (h : map_color_to_ts_normal.apply_mask env map_id width height u i px calls al
      = Sum.inr r) :
    false ∉ r.2.2 := by
  unfold map_color_to_ts_normal.apply_mask at h
  split at h
  · split at h
    · cases h
      exact hal
    · dsimp only at h
      split at h
      · cases h
      · rename_i hok
        split at h
        · cases h
        · rename_i l hres
          have hno : false ∉
              (if env.mask_width ≠ width ∨ env.mask_height ≠ height then
                map_color_to_ts_normal.resize_mask_pixels_allocations
                  env.alloc_resized_pixel_array env.mask_width env.mask_height width height
              else []) := by
            split_ifs at hres ⊢
            · intro hmem
              rw [← map_resize_none_iff] at hmem
              rw [hmem] at hres
              cases hres
            · simp
          cases h
          simp_all
  · cases h
    exact hal

theorem map_alloc_failure {α : Type} [LinearOrderedField α] (sqrtf : α → α)
    (env : map_color_to_ts_normal.map_env α) (map_id : Nat)
    (h : false ∈ (map_color_to_ts_normal.on_process sqrtf env map_id).allocations) :
    (map_color_to_ts_normal.on_process sqrtf env map_id).result = false ∧
    (map_color_to_ts_normal.on_process sqrtf env map_id).calls.any
      map_plugin_core.mp_call.is_log = true ∧
    (map_color_to_ts_normal.on_process sqrtf env map_id).calls.any
      map_plugin_core.mp_call.is_create = false := by
  unfold map_color_to_ts_normal.on_process at h ⊢
  dsimp only at h ⊢
  split
  · rw [if_pos (by assumption)] at h
    simp at h
  · rename_i hg
    rw [if_neg hg] at h
    split
    · rw [if_pos (by assumption)] at h
      simp at h
    · rename_i hz
      rw [if_neg hz] at h
      split
      · simp [map_plugin_core.mp_call.is_log, map_plugin_core.mp_call.is_create]
      · rename_i hok
        rw [if_neg hok] at h
        split
        · rename_i f hgm
          exact map_apply_mask_inl env map_id _ _ _ _ _ _ _
            (by simp [map_plugin_core.mp_call.is_create]) f hgm
        · rename_i px c al hgm
          rw [hgm] at h
          have hno := map_apply_mask_inr env map_id _ _ _ _ _ _ _
            (by simpa using hok) _ hgm
          dsimp only at h hno
          split_ifs at h <;> exact absurd h hno

theorem source_alloc_failure {α : Type} [LinearOrderedField α] (sqrtf : α → α)
    (env : source_ts_normal.source_env α) (map_id : Nat)
    (h : false ∈ (source_ts_normal.on_process sqrtf env map_id).allocations) :
    (source_ts_normal.on_process sqrtf env map_id).result = false ∧
    (source_ts_normal.on_process sqrtf env map_id).calls.any
      map_plugin_core.mp_call.is_log = true ∧
    (source_ts_normal.on_process sqrtf env map_id).calls.any
      map_plugin_core.mp_call.is_create = false := by
  unfold source_ts_normal.on_process at h ⊢
  dsimp only at h ⊢
  split
  · rw [if_pos (by assumption)] at h
    simp at h
  · rename_i hg
    rw [if_neg hg] at h
    split
    · rw [if_pos (by assumption)] at h
      simp at h
    · rename_i hz
      rw [if_neg hz] at h
      split
      · simp [map_plugin_core.mp_call.is_log, map_plugin_core.mp_call.is_create]
      · rename_i hok
        rw [if_neg hok] at h
        split_ifs at h <;> simp_all

theorem geo_render_allocations {α : Type} [Neg α] (env : geo_custom.geo_env α)
    (plugin_index : Nat) (calls : List (geo_plugin_core.gp_call α)) (al : List Bool)
    (va ua ia : List Nat) (index_count : Nat) :
    (geo_custom.on_process_render env plugin_index calls al va ua ia index_count).allocations
      = al := by
  unfold geo_custom.on_process_render
  dsimp only
  split
  · rfl
  · split <;> rfl

theorem geo_node_alloc_failure {α : Type} (env : geo_custom.geo_env α)
    (plugin_index : Nat) (calls : List (geo_plugin_core.gp_call α)) (al : List Bool)
    (va ua ia : List Nat) (vc uc ic fc : Nat)
    (hal : false ∉ al) (hcalls : calls.any geo_plugin_core.gp_call.is_create = false)
    (h : false ∈
      (geo_custom.on_process_node env plugin_index calls al va ua ia vc uc ic fc).allocations) :
    (geo_custom.on_process_node env plugin_index calls al va ua ia vc uc ic fc).is_success
      = false ∧
    (geo_custom.on_process_node env plugin_index calls al va ua ia vc uc ic fc).bad_alloc
      = false ∧
    (geo_custom.on_process_node env plugin_index calls al va ua ia vc uc ic fc).calls.any
      geo_plugin_core.gp_call.is_log = true ∧
    (geo_custom.on_process_node env plugin_index calls al va ua ia vc uc ic fc).calls.any
      geo_plugin_core.gp_call.is_create = false := by
  unfold geo_custom.on_process_node at h ⊢
  dsimp only at h ⊢
  split
  · simp [geo_plugin_core.gp_call.is_log, geo_plugin_core.gp_call.is_create, hcalls]
  · rename_i h1
    rw [if_neg h1] at h
    split
    · simp [geo_plugin_core.gp_call.is_log, geo_plugin_core.gp_call.is_create, hcalls]
    · rename_i h2
      rw [if_neg h2] at h
      split
      · simp [geo_plugin_core.gp_call.is_log, geo_plugin_core.gp_call.is_create, hcalls]
      · rename_i h3
        rw [if_neg h3] at h
        split
        · simp [geo_plugin_core.gp_call.is_log, geo_plugin_core.gp_call.is_create, hcalls]
        · rename_i h4
          rw [if_neg h4] at h
          split
          · simp [geo_plugin_core.gp_call.is_log, geo_plugin_core.gp_call.is_create, hcalls]
          · rename_i h5
            rw [if_neg h5] at h
            exfalso
            split_ifs at h <;> simp_all

theorem geo_alloc_failure {α : Type} [Neg α] (env : geo_custom.geo_env α) (plugin_index : Nat)
    (h : false ∈ (geo_custom.on_process env plugin_index).allocations) :
    (geo_custom.on_process env plugin_index).is_success = false ∧
    (geo_custom.on_process env plugin_index).bad_alloc = false ∧
    (geo_custom.on_process env plugin_index).calls.any geo_plugin_core.gp_call.is_log = true ∧
    (geo_custom.on_process env plugin_index).calls.any geo_plugin_core.gp_call.is_create
      = false := by
  revert h
  unfold geo_custom.on_process
  dsimp only
  split
  · intro h
    simp at h
  · split
    · intro h
      simp at h
    · split
      · intro _
        simp [geo_plugin_core.gp_call.is_log, geo_plugin_core.gp_call.is_create]
      · split
        · intro _
          simp [geo_plugin_core.gp_call.is_log, geo_plugin_core.gp_call.is_create]
        · split
          · intro _
            simp [geo_plugin_core.gp_call.is_log, geo_plugin_core.gp_call.is_create]
          · have hal : false ∉
                [env.alloc_vertex_array, env.alloc_uv_array, env.alloc_index_array] := by
              simp_all
            split
            · intro h
              rw [geo_render_allocations] at h
              exact absurd h hal
            · split
              · intro h
                exact geo_node_alloc_failure env plugin_index _ _ _ _ _ _ _ _ _ hal
                  (by simp [geo_plugin_core.gp_call.is_create]) h
              · intro h
                exact absurd h hal

/-- C8 (amended): in filter_rgba, geo_custom, map_color_to_ts_normal and
source_ts_normal, whenever one of the `new (std::nothrow)` allocations that
`on_process` attempts fails (the one inside `resize_mask_pixels` included),
`on_process` returns FALSE (in geo_custom: it returns, no `std::bad_alloc` has
left it) and has called the host's error log; the geometry and map plugins
have then made no call that sends geometry or a map to the host. -/
theorem allocation_failure_logged {α β : Type} [LinearOrderedField α] [Neg β] (sqrtf : α → α)
    (fenv : filter_rgba.filter_env) (data : filter_plugin_core.process_data_s α)
    (genv : geo_custom.geo_env β) (plugin_index : Nat)
    (menv : map_color_to_ts_normal.map_env α)
    (senv : source_ts_normal.source_env α) (map_id : Nat) :
    (false ∈ (filter_rgba.on_process fenv data).allocations →
      (filter_rgba.on_process fenv data).result = false ∧
      (filter_rgba.on_process fenv data).calls.any filter_plugin_core.fp_call.is_log = true) ∧
    (false ∈ (geo_custom.on_process genv plugin_index).allocations →
      (geo_custom.on_process genv plugin_index).is_success = false ∧
      (geo_custom.on_process genv plugin_index).bad_alloc = false ∧
      (geo_custom.on_process genv plugin_index).calls.any geo_plugin_core.gp_call.is_log
        = true ∧
      (geo_custom.on_process genv plugin_index).calls.any geo_plugin_core.gp_call.is_create
        = false) ∧
    (false ∈ (map_color_to_ts_normal.on_process sqrtf menv map_id).allocations →
      (map_color_to_ts_normal.on_process sqrtf menv map_id).result = false ∧
      (map_color_to_ts_normal.on_process sqrtf menv map_id).calls.any
        map_plugin_core.mp_call.is_log = true ∧
      (map_color_to_ts_normal.on_process sqrtf menv map_id).calls.any
        map_plugin_core.mp_call.is_create = false) ∧
    (false ∈ (source_ts_normal.on_process sqrtf senv map_id).allocations →
      (source_ts_normal.on_process sqrtf senv map_id).result = false ∧
      (source_ts_normal.on_process sqrtf senv map_id).calls.any
        map_plugin_core.mp_call.is_log = true ∧
      (source_ts_normal.on_process sqrtf senv map_id).calls.any
        map_plugin_core.mp_call.is_create = false) :=
  ⟨filter_alloc_failure fenv data, geo_alloc_failure genv plugin_index,
   map_alloc_failure sqrtf menv map_id, source_alloc_failure sqrtf senv map_id⟩

/-- C8 (counterexample): an allocation inside a `std::vector` of geo_custom
fails.  With the complete one-vertex file and every `new (std::nothrow)`
allocation successful, a `push_back` of the RENDER loop, or the second
`resize` of the NODE branch, that cannot obtain storage throws
`std::bad_alloc`: `on_process` is left without a return value (the local
`is_success` is still TRUE), the only call made into the host is the geometry
type query, and the error log has not been called. -/
theorem vector_allocation_failure_not_logged :
    (geo_custom.on_process
      { geo_custom.example_env with vector_alloc := fun _ => false } 3).bad_alloc = true ∧
    (geo_custom.on_process
      { geo_custom.example_env with vector_alloc := fun _ => false } 3).is_success = true ∧
    (geo_custom.on_process
      { geo_custom.example_env with vector_alloc := fun _ => false } 3).calls =
        [geo_plugin_core.gp_call.get_geometry_type] ∧
    (geo_custom.on_process
      { geo_custom.example_env with vector_alloc := fun _ => false } 3).allocations =
        [true, true, true] ∧
    (geo_custom.on_process
      { geo_custom.example_env with
        geometry_type := 1, vector_alloc := fun k => decide (k = 0) } 3).bad_alloc = true ∧
    (geo_custom.on_process
      { geo_custom.example_env with
        geometry_type := 1, vector_alloc := fun k => decide (k = 0) } 3).calls =
        [geo_plugin_core.gp_call.get_geometry_type] ∧
    (geo_custom.on_process
      { geo_custom.example_env with
        geometry_type := 1, vector_alloc := fun k => decide (k = 0) } 3).allocations =
        [true, true, true, true, true, true, true, true] := by
  decide

/-- C8 (amended) at four runs in which a `new (std::nothrow)` allocation
fails: the mask copy in filter_rgba, the uv array in geo_custom, and the pixel
array in the two map plugins. -/
theorem allocation_failure_logged_witness :
    ((filter_rgba.on_process
        { filter_rgba.example_env with alloc_local_mask_pixel_array := false }
        filter_rgba.example_data).result = false ∧
      (filter_rgba.on_process
        { filter_rgba.example_env with alloc_local_mask_pixel_array := false }
        filter_rgba.example_data).calls.any filter_plugin_core.fp_call.is_log = true) ∧
    ((geo_custom.on_process
        { geo_custom.example_env with alloc_uv_array := false } 3).is_success = false ∧
      (geo_custom.on_process
        { geo_custom.example_env with alloc_uv_array := false } 3).bad_alloc = false ∧
      (geo_custom.on_process
        { geo_custom.example_env with alloc_uv_array := false } 3).calls.any
          geo_plugin_core.gp_call.is_log = true ∧
      (geo_custom.on_process
        { geo_custom.example_env with alloc_uv_array := false } 3).calls.any
          geo_plugin_core.gp_call.is_create = false) ∧
    ((map_color_to_ts_normal.on_process (fun x => x)
        { map_color_to_ts_normal.example_env with alloc_local_normal_map_pixels := false }
        1).result = false ∧
      (map_color_to_ts_normal.on_process (fun x => x)
        { map_color_to_ts_normal.example_env with alloc_local_normal_map_pixels := false }
        1).calls.any map_plugin_core.mp_call.is_log = true ∧
      (map_color_to_ts_normal.on_process (fun x => x)
        { map_color_to_ts_normal.example_env with alloc_local_normal_map_pixels := false }
        1).calls.any map_plugin_core.mp_call.is_create = false) ∧
    ((source_ts_normal.on_process (fun x => x)
        { source_ts_normal.example_env with alloc_local_normal_map_pixels := false }
        1).result = false ∧
      (source_ts_normal.on_process (fun x => x)
        { source_ts_normal.example_env with alloc_local_normal_map_pixels := false }
        1).calls.any map_plugin_core.mp_call.is_log = true ∧
      (source_ts_normal.on_process (fun x => x)
        { source_ts_normal.example_env with alloc_local_normal_map_pixels := false }
        1).calls.any map_plugin_core.mp_call.is_create = false) :=
  have h := allocation_failure_logged (fun x : Rat => x)
    { filter_rgba.example_env with alloc_local_mask_pixel_array := false }
    filter_rgba.example_data
    { geo_custom.example_env with alloc_uv_array := false } 3
    { map_color_to_ts_normal.example_env with alloc_local_normal_map_pixels := false }
    { source_ts_normal.example_env with alloc_local_normal_map_pixels := false } 1
  ⟨h.1 (by simp [filter_rgba.on_process, filter_rgba.get_mask, filter_rgba.example_env,
      filter_rgba.example_data]),
    h.2.1 (by decide), h.2.2.1 (by decide), h.2.2.2 (by decide)⟩

/-- C9 (counterexample): the CUSTOM file that ends one word early is read
without complaint: `on_process` returns TRUE and never calls the error log. -/
theorem short_read_not_reported :
    geo_custom.file_ends_early geo_custom.truncated_file = true ∧
    (geo_custom.on_process
      { geo_custom.example_env with file := some geo_custom.truncated_file } 0).is_success
        = true ∧
    (geo_custom.on_process
      { geo_custom.example_env with file := some geo_custom.truncated_file } 0).calls.any
        geo_plugin_core.gp_call.is_log = false := by
  decide

/-- C9 (amended): when the geometry file cannot be opened, `on_process` of
geo_custom logs "Failed to open file at file_path." through the host callback
and returns FALSE, and that is its only call besides the geometry type
query. -/
theorem open_failure_logged {α : Type} [Neg α] (env : geo_custom.geo_env α)
    (plugin_index : Nat) (h : env.file = none) :
    (geo_custom.on_process env plugin_index).is_success = false ∧
    (geo_custom.on_process env plugin_index).calls =
      [geo_plugin_core.gp_call.get_geometry_type,
       geo_plugin_core.gp_call.log_plugin_error plugin_index
         "Failed to open file at file_path."] := by
  unfold geo_custom.on_process
  rw [h]
  exact ⟨rfl, rfl⟩

/-- C9 (amended) at the example host with a file that cannot be opened. -/
theorem open_failure_logged_witness :
    (geo_custom.on_process { geo_custom.example_env with file := none } 3).is_success
      = false ∧
    (geo_custom.on_process { geo_custom.example_env with file := none } 3).calls =
      [geo_plugin_core.gp_call.get_geometry_type,
       geo_plugin_core.gp_call.log_plugin_error 3 "Failed to open file at file_path."] :=
  open_failure_logged { geo_custom.example_env with file := none } 3 rfl

/-- C10: when the header of the geometry file has `vertex_count`, `uv_count`
or `index_count` equal to zero, `on_process` of geo_custom returns FALSE, its
calls are the geometry type query and the error log "One of the geometry
counts was zero.", and so it calls neither `gp_create_render_geometry` nor
`gp_create_node_geometry`. -/
theorem zero_count_rejected {α : Type} [Neg α] (env : geo_custom.geo_env α)
    (plugin_index vertex_count uv_count index_count : Nat) (rest : List Nat)
    (hfile : env.file = some (vertex_count :: uv_count :: index_count :: rest))
    (hzero : vertex_count = 0 ∨ uv_count = 0 ∨ index_count = 0) :
    (geo_custom.on_process env plugin_index).is_success = false ∧
    (geo_custom.on_process env plugin_index).calls =
      [geo_plugin_core.gp_call.get_geometry_type,
       geo_plugin_core.gp_call.log_plugin_error plugin_index
         "One of the geometry counts was zero."] ∧
    (geo_custom.on_process env plugin_index).calls.any geo_plugin_core.gp_call.is_log = true ∧
    (geo_custom.on_process env plugin_index).calls.any geo_plugin_core.gp_call.is_create
      = false := by
  have key : geo_custom.on_process env plugin_index =
      { is_success := false, bad_alloc := false, allocations := [],
        calls := [geo_plugin_core.gp_call.get_geometry_type,
          geo_plugin_core.gp_call.log_plugin_error plugin_index
            "One of the geometry counts was zero."] } := by
    unfold geo_custom.on_process
    rw [hfile]
    dsimp only
    rw [if_pos]
    · rfl
    · simpa [geo_custom.fread] using hzero
  rw [key]
  simp [geo_plugin_core.gp_call.is_log, geo_plugin_core.gp_call.is_create]

/-- C10 at the example host with a file whose header announces no uv. -/
theorem zero_count_rejected_witness :
    (geo_custom.on_process
      { geo_custom.example_env with file := some [1, 0, 7, 1, 2, 3, 4, 5, 6] } 3).is_success
        = false ∧
    (geo_custom.on_process
      { geo_custom.example_env with file := some [1, 0, 7, 1, 2, 3, 4, 5, 6] } 3).calls =
      [geo_plugin_core.gp_call.get_geometry_type,
       geo_plugin_core.gp_call.log_plugin_error 3 "One of the geometry counts was zero."] ∧
    (geo_custom.on_process
      { geo_custom.example_env with file := some [1, 0, 7, 1, 2, 3, 4, 5, 6] } 3).calls.any
        geo_plugin_core.gp_call.is_log = true ∧
    (geo_custom.on_process
      { geo_custom.example_env with file := some [1, 0, 7, 1, 2, 3, 4, 5, 6] } 3).calls.any
        geo_plugin_core.gp_call.is_create = false :=
  zero_count_rejected { geo_custom.example_env with file := some [1, 0, 7, 1, 2, 3, 4, 5, 6] }
    3 1 0 7 [1, 2, 3, 4, 5, 6] rfl (Or.inr (Or.inl rfl))


/-! ### filter_rgba: the colour space report (C11, C12) and the early exit (C13) -/

theorem filter_true_reports {α : Type} [LinearOrderedField α] (env : filter_rgba.filter_env)
    (data : filter_plugin_core.process_data_s α) :
    ((filter_rgba.on_process env data).result = true →
      (filter_rgba.on_process env data).is_sRGB_out = some data.is_sRGB) ∧
    ((filter_rgba.on_process env data).result = false →
      (filter_rgba.on_process env data).is_sRGB_out = none) := by
  unfold filter_rgba.on_process
  dsimp only
  split
  · simp
  · split
    · simp
    · split
      · rename_i f hgm
        unfold filter_rgba.get_mask at hgm
        split at hgm
        · split at hgm
          · cases hgm
          · dsimp only at hgm
            split at hgm
            · cases hgm
              simp
            · split at hgm
              · cases hgm
                simp
              · split at hgm <;> cases hgm
        · cases hgm
      · split
        · simp
        · split <;> simp

/-- C11 (failing input): when the host answers the first cancel poll with TRUE,
`on_process` of filter_rgba returns FALSE and has stored nothing in
`*is_sRGB_out`. -/
theorem cancel_leaves_is_sRGB_out_unset :
    (filter_rgba.on_process { filter_rgba.example_env with cancel := fun _ => true }
      filter_rgba.example_data).result = false ∧
    (filter_rgba.on_process { filter_rgba.example_env with cancel := fun _ => true }
      filter_rgba.example_data).is_sRGB_out = none := by
  simp [filter_rgba.on_process, filter_rgba.get_mask, filter_rgba.example_env,
    filter_rgba.example_data]

/-- C12: whenever `on_process` of filter_rgba returns TRUE, the value it has
stored in `*is_sRGB_out` is `data.is_sRGB`. -/
theorem true_reports_unchanged_color_space {α : Type} [LinearOrderedField α]
    (env : filter_rgba.filter_env) (data : filter_plugin_core.process_data_s α)
    (h : (filter_rgba.on_process env data).result = true) :
    (filter_rgba.on_process env data).is_sRGB_out = some data.is_sRGB :=
  (filter_true_reports env data).1 h

/-- C12 at the example run, which applies the filter and returns TRUE on an
sRGB map. -/
theorem true_reports_unchanged_color_space_witness :
    (filter_rgba.on_process filter_rgba.example_env filter_rgba.example_data).is_sRGB_out
      = some filter_rgba.example_data.is_sRGB :=
  true_reports_unchanged_color_space filter_rgba.example_env filter_rgba.example_data
    (by simp [filter_rgba.on_process, filter_rgba.get_mask, filter_rgba.example_env,
      filter_rgba.example_data])

/-- C13 (counterexample): on a normal map at filter position 0 the early exit
is not taken: with the Red slider at 100 the 1 x 1 map `(0, 0, 0, 1)` becomes
`(1, 0, 0, 1)`. -/
theorem normal_map_at_position_0_is_filtered :
    ({ filter_rgba.example_data with is_normal_map := true } :
      filter_plugin_core.process_data_s Rat).map_pixel_data = [0, 0, 0, 1] ∧
    (filter_rgba.on_process filter_rgba.example_env
      { filter_rgba.example_data with is_normal_map := true }).map_pixel_data
        = [1, 0, 0, 1] := by
  constructor
  · rfl
  · simp [filter_rgba.on_process, filter_rgba.get_mask, filter_rgba.example_env,
      filter_rgba.example_data, filter_rgba.apply_filter, filter_rgba.step_64_mask,
      filter_rgba.clamp_f, filter_rgba.resize_mask_pixels, copy_array, u32, USHRT_MAX,
      List.range_succ]

/-- C13 (amended): on a map with `is_normal_map` set and a filter position
above 0, whatever the slider values, `on_process` of filter_rgba exits early:
it returns TRUE, leaves every pixel of the map unchanged, and its only calls
set the progress to 0 and to 100. -/
theorem normal_map_early_exit {α : Type} [LinearOrderedField α]
    (env : filter_rgba.filter_env) (data : filter_plugin_core.process_data_s α)
    (hn : data.is_normal_map = true) (hp : data.filter_position > 0) :
    (filter_rgba.on_process env data).result = true ∧
    (filter_rgba.on_process env data).map_pixel_data = data.map_pixel_data ∧
    (filter_rgba.on_process env data).calls =
      [filter_plugin_core.fp_call.set_filter_progress data.map_id data.filter_position 0,
       filter_plugin_core.fp_call.set_filter_progress data.map_id data.filter_position 100] := by
  unfold filter_rgba.on_process
  dsimp only
  rw [if_pos ⟨hn, hp⟩]
  exact ⟨rfl, rfl, rfl⟩

/-- C13 (amended) at the example map flagged as a normal map at filter
position 1. -/
theorem normal_map_early_exit_witness :
    (filter_rgba.on_process filter_rgba.example_env
      { filter_rgba.example_data with is_normal_map := true, filter_position := 1 }).result
        = true ∧
    (filter_rgba.on_process filter_rgba.example_env
      { filter_rgba.example_data with is_normal_map := true,
                                      filter_position := 1 }).map_pixel_data
        = [0, 0, 0, 1] ∧
    (filter_rgba.on_process filter_rgba.example_env
      { filter_rgba.example_data with is_normal_map := true, filter_position := 1 }).calls =
      [filter_plugin_core.fp_call.set_filter_progress 1 1 0,
       filter_plugin_core.fp_call.set_filter_progress 1 1 100] :=
  normal_map_early_exit filter_rgba.example_env
    { filter_rgba.example_data with is_normal_map := true, filter_position := 1 }
    rfl (by decide)

/-- C19: in filter_rgba, map_color_to_ts_normal and source_ts_normal the whole
result of `on_process` (return value, pixels, calls, allocations) is the same
whatever value the host's thread limit query returns. -/
theorem thread_limit_unused {α : Type} [LinearOrderedField α] (sqrtf : α → α)
    (fenv : filter_rgba.filter_env) (data : filter_plugin_core.process_data_s α)
    (menv : map_color_to_ts_normal.map_env α) (senv : source_ts_normal.source_env α)
    (map_id t₁ t₂ : Nat) :
    filter_rgba.on_process { fenv with thread_limit := t₁ } data =
      filter_rgba.on_process { fenv with thread_limit := t₂ } data ∧
    map_color_to_ts_normal.on_process sqrtf { menv with thread_limit := t₁ } map_id =
      map_color_to_ts_normal.on_process sqrtf { menv with thread_limit := t₂ } map_id ∧
    source_ts_normal.on_process sqrtf { senv with thread_limit := t₁ } map_id =
      source_ts_normal.on_process sqrtf { senv with thread_limit := t₂ } map_id :=
  ⟨rfl, rfl, rfl⟩
/-! ### Cancel polls (C18) -/

theorem filter_get_mask_inr_polls {α : Type} (env : filter_rgba.filter_env)
    (data : filter_plugin_core.process_data_s α) (u i : Bool)
    (calls : List filter_plugin_core.fp_call)
    (r : Bool × Option (List Nat) × List filter_plugin_core.fp_call × List Bool)
    (h : filter_rgba.get_mask (α := α) env data u i calls = Sum.inr r) :
    r.2.2.1.countP filter_plugin_core.fp_call.is_cancel_poll =
      calls.countP filter_plugin_core.fp_call.is_cancel_poll := by
  unfold filter_rgba.get_mask at h
  split at h
  · split at h
    · cases h
      simp [filter_plugin_core.fp_call.is_cancel_poll]
    · dsimp only at h
      split at h
      · cases h
      · split at h
        · cases h
        · split at h <;> cases h <;> simp [filter_plugin_core.fp_call.is_cancel_poll]
  · cases h
    rfl

theorem filter_cancel {α : Type} [LinearOrderedField α] (env : filter_rgba.filter_env)
    (data : filter_plugin_core.process_data_s α) (k : Nat)
    (hk : k < (filter_rgba.on_process env data).calls.countP
      filter_plugin_core.fp_call.is_cancel_poll)
    (hc : env.cancel k = true) :
    (filter_rgba.on_process env data).result = false := by
  revert hk
  unfold filter_rgba.on_process
  dsimp only
  split
  · simp [filter_plugin_core.fp_call.is_cancel_poll]
  · split
    · simp [filter_plugin_core.fp_call.is_cancel_poll]
    · split
      · rename_i f hgm
        intro _
        exact (filter_get_mask_inl env data _ _ _ f hgm).1
      · rename_i u m c al hgm
        have hp := filter_get_mask_inr_polls env data _ _ _ _ hgm
        simp only [List.countP_append, List.countP_cons, List.countP_nil,
          filter_plugin_core.fp_call.is_cancel_poll] at hp
        split
        · intro _
          rfl
        · split
          · intro _
            rfl
          · rename_i h0 h1
            intro hk
            simp only [List.countP_append, List.countP_cons, List.countP_nil,
              filter_plugin_core.fp_call.is_cancel_poll, hp] at hk
            have hk2 : k = 0 ∨ k = 1 := by
              simp at hk
              omega
            rcases hk2 with rfl | rfl
            · exact absurd hc h0
            · exact absurd hc h1

theorem map_apply_mask_inr_calls {α : Type} [LinearOrderedField α]
    (env : map_color_to_ts_normal.map_env α) (map_id width height : Nat) (u i : Bool)
    (px : List (pixel_64_s α)) (calls : List (map_plugin_core.mp_call α))
    (al : List Bool)
    (r : List (pixel_64_s α) × List (map_plugin_core.mp_call α) × List Bool)
    (h : map_color_to_ts_normal.apply_mask env map_id width height u i px calls al
      = Sum.inr r) :
    r.2.1 = calls ∨ r.2.1 = calls ++ [map_plugin_core.mp_call.get_map_mask map_id] := by
  unfold map_color_to_ts_normal.apply_mask at h
  split at h
  · split at h
    · cases h
      exact Or.inr rfl
    · dsimp only at h
      split at h
      · cases h
      · split at h
        · cases h
        · cases h
          exact Or.inr rfl
  · cases h
    exact Or.inl rfl

theorem map_cancel {α : Type} [LinearOrderedField α] (sqrtf : α → α)
    (env : map_color_to_ts_normal.map_env α) (map_id k : Nat)
    (hk : k < (map_color_to_ts_normal.on_process sqrtf env map_id).calls.countP
      map_plugin_core.mp_call.is_cancel_poll)
    (hc : env.cancel k = true) :
    (map_color_to_ts_normal.on_process sqrtf env map_id).result = false ∧
    (map_color_to_ts_normal.on_process sqrtf env map_id).calls.any
      map_plugin_core.mp_call.is_create = false := by
  revert hk
  unfold map_color_to_ts_normal.on_process
  dsimp only
  split
  · simp [map_plugin_core.mp_call.is_cancel_poll]
  · split
    · simp [map_plugin_core.mp_call.is_cancel_poll]
    · split
      · simp [map_plugin_core.mp_call.is_cancel_poll]
      · split
        · rename_i f hgm
          intro _
          have := map_apply_mask_inl env map_id _ _ _ _ _ _ _
            (by simp [map_plugin_core.mp_call.is_create]) f hgm
          exact ⟨this.1, this.2.2⟩
        · rename_i px c al hgm
          have hcalls := map_apply_mask_inr_calls env map_id _ _ _ _ _ _ _ _ hgm
          dsimp only at hcalls
          split
          · intro _
            rcases hcalls with hcl | hcl <;> rw [hcl] <;>
              simp [map_plugin_core.mp_call.is_create]
          · rename_i h0
            intro hk
            exfalso
            have hk0 : k = 0 := by
              rcases hcalls with hcl | hcl <;> rw [hcl] at hk <;>
                split at hk <;>
                simp [map_plugin_core.mp_call.is_cancel_poll] at hk <;> exact hk
            rw [hk0] at hc
            exact h0 hc

theorem source_cancel {α : Type} [LinearOrderedField α] (sqrtf : α → α)
    (env : source_ts_normal.source_env α) (map_id k : Nat)
    (hk : k < (source_ts_normal.on_process sqrtf env map_id).calls.countP
      map_plugin_core.mp_call.is_cancel_poll)
    (hc : env.cancel k = true) :
    (source_ts_normal.on_process sqrtf env map_id).result = false ∧
    (source_ts_normal.on_process sqrtf env map_id).calls.any
      map_plugin_core.mp_call.is_create = false := by
  revert hk
  unfold source_ts_normal.on_process
  dsimp only
  split
  · simp [map_plugin_core.mp_call.is_cancel_poll]
  · split
    · simp [map_plugin_core.mp_call.is_cancel_poll]
    · split
      · simp [map_plugin_core.mp_call.is_cancel_poll]
      · split
        · intro _
          simp [map_plugin_core.mp_call.is_create]
        · rename_i h0
          intro hk
          exfalso
          have hk0 : k = 0 := by
            split at hk <;>
              simp [map_plugin_core.mp_call.is_cancel_poll] at hk <;> exact hk
          rw [hk0] at hc
          exact h0 hc

/-- C18: in filter_rgba, map_color_to_ts_normal and source_ts_normal, whenever
the host answers one of the cancel polls that `on_process` makes (the `k`-th,
counted from 0) with TRUE, `on_process` returns FALSE; the two map plugins
have then made no call of `mp_create_map`. -/
theorem cancel_returns_false {α : Type} [LinearOrderedField α] (sqrtf : α → α)
    (fenv : filter_rgba.filter_env) (data : filter_plugin_core.process_data_s α)
    (menv : map_color_to_ts_normal.map_env α) (senv : source_ts_normal.source_env α)
    (map_id k : Nat) :
    (k < (filter_rgba.on_process fenv data).calls.countP
        filter_plugin_core.fp_call.is_cancel_poll →
      fenv.cancel k = true →
      (filter_rgba.on_process fenv data).result = false) ∧
    (k < (map_color_to_ts_normal.on_process sqrtf menv map_id).calls.countP
        map_plugin_core.mp_call.is_cancel_poll →
      menv.cancel k = true →
      (map_color_to_ts_normal.on_process sqrtf menv map_id).result = false ∧
      (map_color_to_ts_normal.on_process sqrtf menv map_id).calls.any
        map_plugin_core.mp_call.is_create = false) ∧
    (k < (source_ts_normal.on_process sqrtf senv map_id).calls.countP
        map_plugin_core.mp_call.is_cancel_poll →
      senv.cancel k = true →
      (source_ts_normal.on_process sqrtf senv map_id).result = false ∧
      (source_ts_normal.on_process sqrtf senv map_id).calls.any
        map_plugin_core.mp_call.is_create = false) :=
  ⟨filter_cancel fenv data k, map_cancel sqrtf menv map_id k,
   source_cancel sqrtf senv map_id k⟩

/-- C18 at the example runs with a host that answers every cancel poll with
TRUE. -/
theorem cancel_returns_false_witness :
    (filter_rgba.on_process { filter_rgba.example_env with cancel := fun _ => true }
      filter_rgba.example_data).result = false ∧
    ((map_color_to_ts_normal.on_process (fun x => x)
        { map_color_to_ts_normal.example_env with cancel := fun _ => true } 1).result
          = false ∧
      (map_color_to_ts_normal.on_process (fun x => x)
        { map_color_to_ts_normal.example_env with cancel := fun _ => true } 1).calls.any
          map_plugin_core.mp_call.is_create = false) ∧
    ((source_ts_normal.on_process (fun x => x)
        { source_ts_normal.example_env with cancel := fun _ => true } 1).result = false ∧
      (source_ts_normal.on_process (fun x => x)
        { source_ts_normal.example_env with cancel := fun _ => true } 1).calls.any
          map_plugin_core.mp_call.is_create = false) :=
  have h := cancel_returns_false (fun x : Rat => x)
    { filter_rgba.example_env with cancel := fun _ => true } filter_rgba.example_data
    { map_color_to_ts_normal.example_env with cancel := fun _ => true }
    { source_ts_normal.example_env with cancel := fun _ => true } 1 0
  ⟨h.1 (by simp [filter_rgba.on_process, filter_rgba.get_mask, filter_rgba.example_env,
        filter_rgba.example_data, filter_plugin_core.fp_call.is_cancel_poll]) rfl,
    h.2.1 (by simp [map_color_to_ts_normal.on_process, map_color_to_ts_normal.apply_mask,
        map_color_to_ts_normal.example_env, map_plugin_core.mp_call.is_cancel_poll]) rfl,
    h.2.2 (by simp [source_ts_normal.on_process, source_ts_normal.example_env,
        map_plugin_core.mp_call.is_cancel_poll]) rfl⟩

/-! ### Pixel loops (C14, C15) -/

theorem foldl_range_succ {β : Type} (s : β → Nat → β) (init : β) (n : Nat) :
    (List.range (n + 1)).foldl s init = s ((List.range n).foldl s init) n := by
  rw [List.range_succ, List.foldl_append]
  rfl

theorem foldl_range_length {β : Type} (s : List β → Nat → List β)
    (hs : ∀ px i, (s px i).length = px.length) (px : List β) (n : Nat) :
    ((List.range n).foldl s px).length = px.length := by
  induction n with
  | zero => rfl
  | succ n ih => rw [foldl_range_succ, hs, ih]

/-- A loop over `i < n` whose step `i` leaves the entries below `c * i` alone
and stores only values with property `P` in the block
`c * i ≤ j < c * (i + 1)` ends with `P` at every entry below `c * n`. -/
theorem foldl_range_blocks {β : Type} (P : β → Prop) (c : Nat) (s : List β → Nat → List β)
    (hold : ∀ px i j, j < c * i → (s px i)[j]? = px[j]?)
    (hnew : ∀ px i j x, c * i ≤ j → j < c * (i + 1) → (s px i)[j]? = some x → P x)
    (px : List β) (n j : Nat) (x : β) (hj : j < c * n)
    (hx : ((List.range n).foldl s px)[j]? = some x) : P x := by
  induction n with
  | zero => simp at hj
  | succ n ih =>
    rw [foldl_range_succ] at hx
    by_cases hlt : j < c * n
    · rw [hold _ _ _ hlt] at hx
      exact ih hlt hx
    · exact hnew _ n j x (by omega) hj hx

theorem clamp_f_range {α : Type} [LinearOrderedField α] (v : α) :
    0 ≤ filter_rgba.clamp_f v ∧ filter_rgba.clamp_f v ≤ 1 := by
  unfold filter_rgba.clamp_f
  split_ifs with h0 h1
  · exact ⟨le_refl 0, zero_le_one⟩
  · exact ⟨zero_le_one, le_refl 1⟩
  · exact ⟨not_lt.mp h0, not_lt.mp h1⟩

theorem step_32_old {α : Type} [LinearOrderedField α] (r a : α) (px : List α) (i j : Nat)
    (hj : j < 2 * i) : (filter_rgba.step_32 r a px i)[j]? = px[j]? := by
  unfold filter_rgba.step_32
  dsimp only
  rw [List.getElem?_set_ne (by omega), List.getElem?_set_ne (by omega)]

theorem step_32_new {α : Type} [LinearOrderedField α] (r a : α) (px : List α) (i j : Nat)
    (x : α) (h1 : 2 * i ≤ j) (h2 : j < 2 * (i + 1))
    (hx : (filter_rgba.step_32 r a px i)[j]? = some x) : 0 ≤ x ∧ x ≤ 1 := by
  unfold filter_rgba.step_32 at hx
  dsimp only at hx
  simp only [List.getElem?_set, List.length_set] at hx
  split_ifs at hx <;> first
    | (cases hx; exact clamp_f_range _)
    | (exfalso; omega)

theorem step_32_mask_old {α : Type} [LinearOrderedField α] (r a : α) (m : List Nat)
    (px : List α) (i j : Nat) (hj : j < 2 * i) :
    (filter_rgba.step_32_mask r a m px i)[j]? = px[j]? := by
  unfold filter_rgba.step_32_mask
  dsimp only
  rw [List.getElem?_set_ne (by omega), List.getElem?_set_ne (by omega)]

theorem step_32_mask_new {α : Type} [LinearOrderedField α] (r a : α) (m : List Nat)
    (px : List α) (i j : Nat) (x : α) (h1 : 2 * i ≤ j) (h2 : j < 2 * (i + 1))
    (hx : (filter_rgba.step_32_mask r a m px i)[j]? = some x) : 0 ≤ x ∧ x ≤ 1 := by
  unfold filter_rgba.step_32_mask at hx
  dsimp only at hx
  simp only [List.getElem?_set, List.length_set] at hx
  split_ifs at hx <;> first
    | (cases hx; exact clamp_f_range _)
    | (exfalso; omega)

theorem step_64_old {α : Type} [LinearOrderedField α] (r g b a : α) (px : List α) (i j : Nat)
    (hj : j < 4 * i) : (filter_rgba.step_64 r g b a px i)[j]? = px[j]? := by
  unfold filter_rgba.step_64
  dsimp only
  rw [List.getElem?_set_ne (by omega), List.getElem?_set_ne (by omega),
    List.getElem?_set_ne (by omega), List.getElem?_set_ne (by omega)]

theorem step_64_new {α : Type} [LinearOrderedField α] (r g b a : α) (px : List α) (i j : Nat)
    (x : α) (h1 : 4 * i ≤ j) (h2 : j < 4 * (i + 1))
    (hx : (filter_rgba.step_64 r g b a px i)[j]? = some x) : 0 ≤ x ∧ x ≤ 1 := by
  unfold filter_rgba.step_64 at hx
  dsimp only at hx
  simp only [List.getElem?_set, List.length_set] at hx
  split_ifs at hx <;> first
    | (cases hx; exact clamp_f_range _)
    | (exfalso; omega)

theorem step_64_mask_old {α : Type} [LinearOrderedField α] (r g b a : α) (m : List Nat)
    (px : List α) (i j : Nat) (hj : j < 4 * i) :
    (filter_rgba.step_64_mask r g b a m px i)[j]? = px[j]? := by
  unfold filter_rgba.step_64_mask
  dsimp only
  rw [List.getElem?_set_ne (by omega), List.getElem?_set_ne (by omega),
    List.getElem?_set_ne (by omega), List.getElem?_set_ne (by omega)]

theorem step_64_mask_new {α : Type} [LinearOrderedField α] (r g b a : α) (m : List Nat)
    (px : List α) (i j : Nat) (x : α) (h1 : 4 * i ≤ j) (h2 : j < 4 * (i + 1))
    (hx : (filter_rgba.step_64_mask r g b a m px i)[j]? = some x) : 0 ≤ x ∧ x ≤ 1 := by
  unfold filter_rgba.step_64_mask at hx
  dsimp only at hx
  simp only [List.getElem?_set, List.length_set] at hx
  split_ifs at hx <;> first
    | (cases hx; exact clamp_f_range _)
    | (exfalso; omega)

theorem apply_filter_range {α : Type} [LinearOrderedField α]
    (data : filter_plugin_core.process_data_s α) (r g b a : α) (u : Bool)
    (m : Option (List Nat)) (j : Nat) (x : α)
    (hj : j < (if data.is_grayscale then 2 else 4) * u32 (data.map_width * data.map_height))
    (hx : (filter_rgba.apply_filter data r g b a u m)[j]? = some x) :
    0 ≤ x ∧ x ≤ 1 := by
  unfold filter_rgba.apply_filter at hx
  dsimp only at hx
  split at hx
  · rename_i hg
    rw [if_pos hg] at hj
    split at hx
    · exact foldl_range_blocks _ 2 _ (step_32_mask_old _ _ _) (step_32_mask_new _ _ _)
        _ _ j x hj hx
    · exact foldl_range_blocks _ 2 _ (step_32_old _ _) (step_32_new _ _) _ _ j x hj hx
  · rename_i hg
    rw [if_neg hg] at hj
    split at hx
    · exact foldl_range_blocks _ 4 _ (step_64_mask_old _ _ _ _ _)
        (step_64_mask_new _ _ _ _ _) _ _ j x hj hx
    · exact foldl_range_blocks _ 4 _ (step_64_old _ _ _ _) (step_64_new _ _ _ _)
        _ _ j x hj hx

theorem apply_filter_length {α : Type} [LinearOrderedField α]
    (data : filter_plugin_core.process_data_s α) (r g b a : α) (u : Bool)
    (m : Option (List Nat)) :
    (filter_rgba.apply_filter data r g b a u m).length = data.map_pixel_data.length := by
  unfold filter_rgba.apply_filter
  dsimp only
  split <;> split <;> apply foldl_range_length <;> intro px i <;>
    simp [filter_rgba.step_32_mask, filter_rgba.step_32, filter_rgba.step_64_mask,
      filter_rgba.step_64]

theorem slider_scalar_eq_zero {α : Type} [LinearOrderedField α] (n : Int) :
    (n : α) / 100 = 0 ↔ n = 0 := by
  rw [div_eq_zero_iff]
  constructor
  · rintro (h | h)
    · exact_mod_cast h
    · norm_num at h
  · intro h
    left
    exact_mod_cast h

/-- Without a mask and without a cancel request, a map whose pixel count
`map_width * map_height` is 0 as an `unsigned int` leaves `on_process` of
filter_rgba with TRUE and with its pixel array as it was: the loop runs to
`count_i = 0`. -/
theorem filter_count_zero_unchanged {α : Type} [LinearOrderedField α]
    (env : filter_rgba.filter_env) (data : filter_plugin_core.process_data_s α)
    (hn : ¬ (data.is_normal_map = true ∧ data.filter_position > 0))
    (hs : ¬ (env.slider 0 = 0 ∧ env.slider 1 = 0 ∧ env.slider 2 = 0 ∧ env.slider 3 = 0))
    (hm : env.checkbox 4 = false) (hc0 : env.cancel 0 = false) (hc1 : env.cancel 1 = false)
    (h0 : u32 (data.map_width * data.map_height) = 0) :
    (filter_rgba.on_process env data).result = true ∧
    (filter_rgba.on_process env data).map_pixel_data = data.map_pixel_data := by
  have hs' : ¬ ((env.slider 0 : α) / 100 = 0 ∧ (env.slider 1 : α) / 100 = 0 ∧
      (env.slider 2 : α) / 100 = 0 ∧ (env.slider 3 : α) / 100 = 0) := by
    simpa only [slider_scalar_eq_zero] using hs
  unfold filter_rgba.on_process
  dsimp only
  rw [if_neg hn, if_neg hs']
  unfold filter_rgba.get_mask filter_rgba.apply_filter
  simp only [hm, hc0, hc1, h0, Bool.false_eq_true, if_false, List.range_zero, List.foldl_nil]
  constructor
  · trivial
  · split <;> rfl

/-- C14 (amended): for a map whose pixel count `map_width * map_height` is
below `2 ^ 32` (the range of the `unsigned int` counter `count_i`), whenever
`on_process` of filter_rgba applies the filter (the map is not a normal map at
a filter position above 0, the sliders are not all zero, and the result is
TRUE), the pixel array keeps its length and every channel value of every one
of the `map_width * map_height` pixels (2 values per pixel for grayscale, 4
for RGBA) lies in the range 0 to 1. -/
theorem filtered_channels_in_unit_range {α : Type} [LinearOrderedField α]
    (env : filter_rgba.filter_env) (data : filter_plugin_core.process_data_s α)
    (hn : ¬ (data.is_normal_map = true ∧ data.filter_position > 0))
    (hs : ¬ (env.slider 0 = 0 ∧ env.slider 1 = 0 ∧ env.slider 2 = 0 ∧ env.slider 3 = 0))
    (hsize : data.map_width * data.map_height < 2 ^ 32)
    (ht : (filter_rgba.on_process env data).result = true) :
    (filter_rgba.on_process env data).map_pixel_data.length = data.map_pixel_data.length ∧
    ∀ j x, j < (if data.is_grayscale then 2 else 4) * (data.map_width * data.map_height) →
      (filter_rgba.on_process env data).map_pixel_data[j]? = some x → 0 ≤ x ∧ x ≤ 1 := by
  have hs' : ¬ ((env.slider 0 : α) / 100 = 0 ∧ (env.slider 1 : α) / 100 = 0 ∧
      (env.slider 2 : α) / 100 = 0 ∧ (env.slider 3 : α) / 100 = 0) := by
    simpa only [slider_scalar_eq_zero] using hs
  have hu : u32 (data.map_width * data.map_height) = data.map_width * data.map_height :=
    Nat.mod_eq_of_lt hsize
  revert ht
  unfold filter_rgba.on_process
  dsimp only
  rw [if_neg hn, if_neg hs']
  split
  · rename_i f hgm
    intro ht
    rw [(filter_get_mask_inl env data _ _ _ f hgm).1] at ht
    cases ht
  · split
    · intro ht
      cases ht
    · split
      · intro ht
        cases ht
      · intro _
        refine ⟨apply_filter_length _ _ _ _ _ _ _, ?_⟩
        intro j x hj hx
        rw [← hu] at hj
        exact apply_filter_range _ _ _ _ _ _ _ j x hj hx

/-- C14 (counterexample): the 65536 x 65536 RGBA map whose channels all hold
2, filtered without a mask with the Red slider at 100.  The pixel array has
the four channels of each of its `65536 * 65536` pixels, `on_process` takes no
early exit and returns TRUE, and channel 0 of pixel 0 still holds 2, above 1:
the `unsigned int` product `map_width * map_height` is 0, so the loop visits
no pixel. -/
theorem wide_map_left_unfiltered :
    filter_rgba.wide_data.map_pixel_data.length =
      4 * (filter_rgba.wide_data.map_width * filter_rgba.wide_data.map_height) ∧
    ¬ (filter_rgba.wide_data.is_normal_map = true ∧
      filter_rgba.wide_data.filter_position > 0) ∧
    (filter_rgba.on_process
      { filter_rgba.example_env with checkbox := fun _ => false }
      filter_rgba.wide_data).result = true ∧
    (filter_rgba.on_process
      { filter_rgba.example_env with checkbox := fun _ => false }
      filter_rgba.wide_data).map_pixel_data[0]? = some 2 ∧
    (1 : Rat) < 2 := by
  obtain ⟨hr, hp⟩ := filter_count_zero_unchanged
    { filter_rgba.example_env with checkbox := fun _ => false } filter_rgba.wide_data
    (by decide) (by decide) rfl rfl rfl (by decide)
  refine ⟨?_, by decide, hr, ?_, by norm_num⟩
  · show (List.replicate (4 * (65536 * 65536)) (2 : Rat)).length = _
    rw [List.length_replicate]
    rfl
  · rw [hp]
    show (List.replicate (4 * (65536 * 65536)) (2 : Rat))[0]? = some 2
    rw [List.getElem?_replicate, if_pos (by norm_num)]

/-- C14 (amended) at the example run: the 1 x 1 RGBA map keeps its four
channel values and each of them lies in the range 0 to 1. -/
theorem filtered_channels_in_unit_range_witness :
    (filter_rgba.on_process filter_rgba.example_env
      filter_rgba.example_data).map_pixel_data.length
        = filter_rgba.example_data.map_pixel_data.length ∧
    ∀ j x, j < (if filter_rgba.example_data.is_grayscale then 2 else 4) *
        (filter_rgba.example_data.map_width * filter_rgba.example_data.map_height) →
      (filter_rgba.on_process filter_rgba.example_env
        filter_rgba.example_data).map_pixel_data[j]? = some x → 0 ≤ x ∧ x ≤ 1 :=
  filtered_channels_in_unit_range filter_rgba.example_env filter_rgba.example_data
    (by decide) (by decide) (by decide)
    (by simp [filter_rgba.on_process, filter_rgba.get_mask, filter_rgba.example_env,
      filter_rgba.example_data])


theorem fread_one (u x : Nat) (s : List Nat) :
    geo_custom.fread [u] 1 (x :: s) = ([x], s) := by
  simp [geo_custom.fread]

theorem fread_exact (buffer A B : List Nat) (count : Nat) (hb : buffer.length = count)
    (hA : A.length = count) : geo_custom.fread buffer count (A ++ B) = (A, B) := by
  unfold geo_custom.fread
  have ht : List.take count (A ++ B) = A := by
    rw [← hA]
    exact List.take_left' rfl
  have hd : List.drop count (A ++ B) = B := by
    rw [← hA]
    exact List.drop_left' rfl
  rw [ht, hd, hA, ← hb, List.drop_length, List.append_nil]

theorem loop_indices_mul (F : Nat) :
    geo_custom.loop_indices (7 * F) = (List.range F).map (fun k => 7 * k) := by
  unfold geo_custom.loop_indices
  have : (7 * F + 6) / 7 = F := by omega
  rw [this]

/-- A complete CUSTOM file with non-zero counts and successful allocations of
the three arrays: `on_process` reaches the branch on the geometry type with
the arrays of the file. -/
theorem geo_on_process_complete {α : Type} [Neg α] (env : geo_custom.geo_env α)
    (plugin_index vertex_count uv_count index_count : Nat) (V U I rest : List Nat)
    (hfile : env.file = some (vertex_count :: uv_count :: index_count :: (V ++ U ++ I ++ rest)))
    (hV : V.length = 6 * vertex_count) (hU : U.length = 2 * uv_count)
    (hI : I.length = index_count)
    (hvc : vertex_count ≠ 0) (huc : uv_count ≠ 0) (hic : index_count ≠ 0)
    (ha1 : env.alloc_vertex_array = true) (ha2 : env.alloc_uv_array = true)
    (ha3 : env.alloc_index_array = true) :
    geo_custom.on_process env plugin_index =
      if env.geometry_type = geo_plugin_core.GP_GEOMETRY_TYPE_RENDER then
        geo_custom.on_process_render env plugin_index
          [geo_plugin_core.gp_call.get_geometry_type] [true, true, true] V U I index_count
      else if env.geometry_type = geo_plugin_core.GP_GEOMETRY_TYPE_NODE then
        geo_custom.on_process_node env plugin_index
          [geo_plugin_core.gp_call.get_geometry_type] [true, true, true] V U I
          vertex_count uv_count index_count (index_count / 7)
      else
        { is_success := true, bad_alloc := false, allocations := [true, true, true],
          calls := [geo_plugin_core.gp_call.get_geometry_type] } := by
  unfold geo_custom.on_process
  rw [hfile]
  dsimp only
  have e1 : V ++ U ++ I ++ rest = V ++ (U ++ (I ++ rest)) := by
    simp only [List.append_assoc]
  simp only [fread_one, e1, List.getD_cons_zero]
  rw [if_neg (by simp [hvc, huc, hic])]
  rw [fread_exact _ V _ (6 * vertex_count) (by simp) hV]
  dsimp only
  rw [fread_exact _ U _ (2 * uv_count) (by simp) hU]
  dsimp only
  rw [fread_exact _ I _ index_count (by simp) hI]
  simp only [ha1, ha2, ha3, Bool.not_true, Bool.false_eq_true, if_false]

theorem render_step_lists {α : Type} [Neg α] (f : Nat → α) (V U I : List Nat)
    (st : geo_custom.render_lists α) (i : Nat) :
    (geo_custom.render_step f V U I st i).render_vertex_list =
      st.render_vertex_list ++
        [geo_custom.make_render_vertex f V U (I.getD i 0) (I.getD (i + 3) 0),
         geo_custom.make_render_vertex f V U (I.getD (i + 1) 0) (I.getD (i + 4) 0),
         geo_custom.make_render_vertex f V U (I.getD (i + 2) 0) (I.getD (i + 5) 0)] ∧
    (geo_custom.render_step f V U I st i).render_face_list =
      st.render_face_list ++
        [{ a := u32 (st.render_vertex_list.length + 1) - 1,
           b := u32 (st.render_vertex_list.length + 2) - 1,
           c := u32 (st.render_vertex_list.length + 3) - 1,
           subset_index := 0 }] := by
  unfold geo_custom.render_step
  simp [List.append_assoc]

theorem render_loop_closed {α : Type} [Neg α] (f : Nat → α) (V U I : List Nat) (F : Nat)
    (hF : 3 * F < 2 ^ 32) :
    (((List.range F).map (fun k => 7 * k)).foldl (geo_custom.render_step f V U I)
        { render_vertex_list := [], render_face_list := [] }).render_vertex_list =
      (List.range (3 * F)).map (fun n => geo_custom.make_render_vertex f V U
        (I.getD (7 * (n / 3) + n % 3) 0) (I.getD (7 * (n / 3) + 3 + n % 3) 0)) ∧
    (((List.range F).map (fun k => 7 * k)).foldl (geo_custom.render_step f V U I)
        { render_vertex_list := [], render_face_list := [] }).render_face_list =
      (List.range F).map (fun k =>
        ({ a := 3 * k, b := 3 * k + 1, c := 3 * k + 2, subset_index := 0 } :
          geo_plugin_core.gp_render_face_s)) := by
  induction F with
  | zero => exact ⟨rfl, rfl⟩
  | succ F ih =>
    obtain ⟨ihv, ihf⟩ := ih (by omega)
    rw [List.foldl_map] at ihv ihf ⊢
    rw [foldl_range_succ]
    generalize (List.range F).foldl (fun x y => geo_custom.render_step f V U I x (7 * y))
      { render_vertex_list := [], render_face_list := [] } = st at ihv ihf ⊢
    obtain ⟨hv, hf⟩ := render_step_lists f V U I st (7 * F)
    have hlen : st.render_vertex_list.length = 3 * F := by
      rw [ihv, List.length_map, List.length_range]
    rw [hv, hf, hlen, ihv, ihf]
    have e3 : 3 * (F + 1) = 3 * F + 1 + 1 + 1 := by ring
    have d0 : 3 * F / 3 = F := by omega
    have m0 : 3 * F % 3 = 0 := by omega
    have d1 : (3 * F + 1) / 3 = F := by omega
    have m1 : (3 * F + 1) % 3 = 1 := by omega
    have d2 : (3 * F + 1 + 1) / 3 = F := by omega
    have m2 : (3 * F + 1 + 1) % 3 = 2 := by omega
    have u1 : u32 (3 * F + 1) = 3 * F + 1 := Nat.mod_eq_of_lt (by omega)
    have u2 : u32 (3 * F + 2) = 3 * F + 2 := Nat.mod_eq_of_lt (by omega)
    have u3 : u32 (3 * F + 3) = 3 * F + 3 := Nat.mod_eq_of_lt (by omega)
    constructor
    · rw [e3, List.range_succ, List.range_succ, List.range_succ]
      simp only [List.map_append, List.map_cons, List.map_nil, d0, m0, d1, m1, d2, m2,
        Nat.add_zero, List.append_assoc, List.cons_append, List.nil_append]
    · rw [List.range_succ, u1, u2, u3]
      simp only [List.map_append, List.map_cons, List.map_nil, Nat.add_sub_cancel]
      rfl

/-- The `push_back` calls of a RENDER loop over `7 * F` indices all obtain
their storage when the first `4 * F` vector operations do. -/
theorem render_vectors_ok {α : Type} (env : geo_custom.geo_env α) (F : Nat)
    (hvec : ∀ n, n < 4 * F → env.vector_alloc n = true) :
    (List.range (4 * (geo_custom.loop_indices (7 * F)).length)).all env.vector_alloc = true := by
  rw [loop_indices_mul, List.length_map, List.length_range, List.all_eq_true]
  intro n hn
  exact hvec n (List.mem_range.mp hn)

/-- C16 (amended): for geometry type RENDER and a complete CUSTOM file (the
three counts, then the `6 * vertex_count`, `2 * uv_count` and `index_count`
words they announce) whose `index_count` is `7 * face_count`, not zero and
below `2 ^ 32`, and whose indices are in range, when the three
`new (std::nothrow)` allocations and the four `push_back` calls of every
iteration succeed, `on_process` of geo_custom returns after one call
`gp_create_render_geometry` with `3 * face_count` vertices, `face_count` faces,
one subset, no normal creation and no additional UV arrays: face `k` is
`(3k, 3k+1, 3k+2)` with subset 0, and vertex `3k+j` holds the six floats of
vertex `index_array[7k+j]` of the file (words `6i .. 6i+5` of the vertex
array: position, then normal) and the texture coordinates `(u, -v)` of uv
`index_array[7k+3+j]` (words `2t`, `2t+1` of the uv array).  No entry `7k+6`
of the index array occurs in what is sent.  The only other calls are the
geometry type query before it and, when the host answers FALSE, the error log
after it. -/
theorem render_geometry_sent {α : Type} [Neg α] (env : geo_custom.geo_env α)
    (plugin_index vertex_count uv_count face_count : Nat) (V U I rest : List Nat)
    (htype : env.geometry_type = geo_plugin_core.GP_GEOMETRY_TYPE_RENDER)
    (hfile : env.file =
      some (vertex_count :: uv_count :: (7 * face_count) :: (V ++ U ++ I ++ rest)))
    (hV : V.length = 6 * vertex_count) (hU : U.length = 2 * uv_count)
    (hI : I.length = 7 * face_count)
    (hF : 0 < face_count) (h32 : 7 * face_count < 2 ^ 32)
    (hvi : ∀ k j, k < face_count → j < 3 → I.getD (7 * k + j) 0 < vertex_count)
    (hui : ∀ k j, k < face_count → j < 3 → I.getD (7 * k + 3 + j) 0 < uv_count)
    (ha1 : env.alloc_vertex_array = true) (ha2 : env.alloc_uv_array = true)
    (ha3 : env.alloc_index_array = true)
    (hvec : ∀ n, n < 4 * face_count → env.vector_alloc n = true) :
    ∃ vs fs,
      (geo_custom.on_process env plugin_index).calls =
        [geo_plugin_core.gp_call.get_geometry_type,
         geo_plugin_core.gp_call.create_render_geometry vs (3 * face_count) fs face_count
           1 false 0] ++
        (if env.create_render_geometry = true then []
         else [geo_plugin_core.gp_call.log_plugin_error plugin_index
           "Failed to create render geometry with gp_create_render_geometry."]) ∧
      (geo_custom.on_process env plugin_index).bad_alloc = false ∧
      (geo_custom.on_process env plugin_index).is_success = env.create_render_geometry ∧
      vs.length = 3 * face_count ∧
      fs.length = face_count ∧
      (∀ k, k < face_count →
        fs[k]? = some { a := 3 * k, b := 3 * k + 1, c := 3 * k + 2, subset_index := 0 }) ∧
      (∀ k j, k < face_count → j < 3 →
        vs[3 * k + j]? = some
          { x := env.as_float (V.getD (6 * I.getD (7 * k + j) 0) 0),
            y := env.as_float (V.getD (6 * I.getD (7 * k + j) 0 + 1) 0),
            z := env.as_float (V.getD (6 * I.getD (7 * k + j) 0 + 2) 0),
            nx := env.as_float (V.getD (6 * I.getD (7 * k + j) 0 + 3) 0),
            ny := env.as_float (V.getD (6 * I.getD (7 * k + j) 0 + 4) 0),
            nz := env.as_float (V.getD (6 * I.getD (7 * k + j) 0 + 5) 0),
            u := env.as_float (U.getD (2 * I.getD (7 * k + 3 + j) 0) 0),
            v := -(env.as_float (U.getD (2 * I.getD (7 * k + 3 + j) 0 + 1) 0)) }) := by
  have hvc : vertex_count ≠ 0 := by
    have := hvi 0 0 hF (by omega)
    omega
  have huc : uv_count ≠ 0 := by
    have := hui 0 0 hF (by omega)
    omega
  obtain ⟨hv, hf⟩ := render_loop_closed env.as_float V U I face_count (by omega)
  have hu3 : u32 (3 * face_count) = 3 * face_count := Nat.mod_eq_of_lt (by omega)
  have hu1 : u32 face_count = face_count := Nat.mod_eq_of_lt (by omega)
  rw [geo_on_process_complete env plugin_index vertex_count uv_count (7 * face_count)
    V U I rest hfile hV hU hI hvc huc (by omega) ha1 ha2 ha3, if_pos htype]
  unfold geo_custom.on_process_render
  dsimp only
  rw [render_vectors_ok env face_count hvec]
  rw [loop_indices_mul, hv, hf]
  simp only [List.length_map, List.length_range, hu3, hu1]
  refine ⟨(List.range (3 * face_count)).map (fun n =>
      geo_custom.make_render_vertex env.as_float V U
        (I.getD (7 * (n / 3) + n % 3) 0) (I.getD (7 * (n / 3) + 3 + n % 3) 0)),
    (List.range face_count).map (fun k =>
      ({ a := 3 * k, b := 3 * k + 1, c := 3 * k + 2, subset_index := 0 } :
        geo_plugin_core.gp_render_face_s)), ?_, ?_, ?_, ?_, ?_, ?_, ?_⟩
  · cases hcr : env.create_render_geometry <;> simp
  · cases hcr : env.create_render_geometry <;> simp
  · cases hcr : env.create_render_geometry <;> simp
  · rw [List.length_map, List.length_range]
  · rw [List.length_map, List.length_range]
  · intro k hk
    rw [List.getElem?_map, List.getElem?_range hk]
    rfl
  · intro k j hk hj
    have hlt : 3 * k + j < 3 * face_count := by omega
    have hd : (3 * k + j) / 3 = k := by omega
    have hm : (3 * k + j) % 3 = j := by omega
    rw [List.getElem?_map, List.getElem?_range hlt]
    simp only [Option.map_some', hd, hm]
    rfl

/-- Invariant of the NODE loop after `k` of its `F` iterations: the first `k`
faces and the first `3 * k` uv indices are stored, the other faces are still
the default face. -/
theorem node_loop_invariant (I : List Nat) (F k : Nat) (hk : k ≤ F) (h32 : 3 * F < 2 ^ 32) :
    ∀ st, st = (List.range k).foldl (fun st y => geo_custom.node_step I st (7 * y))
        ({ node_face_list := List.replicate F geo_plugin_core.gp_node_face_default,
           uv_indices := List.replicate (u32 (F * 3)) 0, ui_0 := 0, ui_1 := 0 } :
          geo_custom.node_lists) →
      st.ui_0 = k ∧ st.ui_1 = 3 * k ∧
      st.node_face_list.length = F ∧ st.uv_indices.length = 3 * F ∧
      (∀ i, i < k → st.node_face_list[i]? = some
        { a := I.getD (7 * i) 0, b := I.getD (7 * i + 1) 0, c := I.getD (7 * i + 2) 0,
          subset_index := 0, color := geo_plugin_core.gp_node_face_default.color }) ∧
      (∀ i, k ≤ i → i < F →
        st.node_face_list[i]? = some geo_plugin_core.gp_node_face_default) ∧
      (∀ i j, i < k → j < 3 → st.uv_indices[3 * i + j]? = some (I.getD (7 * i + 3 + j) 0)) := by
  induction k with
  | zero =>
    intro st hst
    have hu : u32 (F * 3) = 3 * F := by
      rw [Nat.mul_comm]
      exact Nat.mod_eq_of_lt h32
    subst hst
    refine ⟨rfl, rfl, ?_, ?_, ?_, ?_, ?_⟩
    · simp
    · simp [hu]
    · intro i hi
      omega
    · intro i _ hi
      simp [List.getElem?_replicate, hi]
    · intro i j hi
      omega
  | succ k ih =>
    intro st hst
    rw [foldl_range_succ] at hst
    obtain ⟨h0, h1, hfl, hul, hdone, htodo, huv⟩ := ih (by omega) _ rfl
    generalize (List.range k).foldl (fun st y => geo_custom.node_step I st (7 * y))
        ({ node_face_list := List.replicate F geo_plugin_core.gp_node_face_default,
           uv_indices := List.replicate (u32 (F * 3)) 0, ui_0 := 0, ui_1 := 0 } :
          geo_custom.node_lists) = s at hst h0 h1 hfl hul hdone htodo huv
    subst hst
    unfold geo_custom.node_step
    dsimp only
    rw [h0, h1]
    have hkF : k < F := by omega
    have hget : s.node_face_list.getD k geo_plugin_core.gp_node_face_default =
        geo_plugin_core.gp_node_face_default := by
      rw [List.getD_eq_getElem?_getD, htodo k (le_refl k) hkF]
      rfl
    refine ⟨rfl, by ring, ?_, ?_, ?_, ?_, ?_⟩
    · rw [List.length_set, hfl]
    · rw [List.length_set, List.length_set, List.length_set, hul]
    · intro i hi
      by_cases hik : i = k
      · subst hik
        rw [List.getElem?_set, if_pos rfl, if_pos (by omega), hget]
      · rw [List.getElem?_set_ne (by omega)]
        exact hdone i (by omega)
    · intro i hki hiF
      rw [List.getElem?_set_ne (by omega)]
      exact htodo i (by omega) hiF
    · intro i j hi hj
      by_cases hik : i = k
      · subst hik
        simp only [List.getElem?_set, List.length_set]
        have : j = 0 ∨ j = 1 ∨ j = 2 := by omega
        rcases this with rfl | rfl | rfl
        · rw [if_neg (by omega), if_neg (by omega), if_pos (by omega), if_pos (by omega)]
        · rw [if_neg (by omega), if_pos (by omega), if_pos (by omega)]
        · rw [if_pos (by omega), if_pos (by omega)]
      · rw [List.getElem?_set_ne (by omega), List.getElem?_set_ne (by omega),
          List.getElem?_set_ne (by omega)]
        exact huv i j (by omega) hj

/-- C17 (amended): for geometry type NODE and a complete CUSTOM file (the three
counts, then the `6 * vertex_count`, `2 * uv_count` and `index_count` words
they announce) with non-zero counts whose `index_count` is `7 * face_count`,
below `2 ^ 32`, when the eight `new (std::nothrow)` allocations and the two
`resize` calls succeed, `on_process` of geo_custom returns after one call
`gp_create_node_geometry` with the `vertex_count` vertices of the file in file
order (vertex `i` holds words `6i .. 6i+5` of the vertex array: position, then
normal), `face_count` faces where face `k` is
`(index_array[7k], index_array[7k+1], index_array[7k+2])` with subset 0 and
the default colour, one subset, no normal creation, and exactly one UV channel
that holds the `uv_count` UVs of the file unchanged (uv `i` holds words `2i`,
`2i+1` of the uv array) and the three UV indices `index_array[7k+3]`,
`index_array[7k+4]`, `index_array[7k+5]` for face `k`.  The only other calls
are the geometry type query before it and, when the host answers FALSE, the
error log after it. -/
theorem node_geometry_sent {α : Type} [Neg α] (env : geo_custom.geo_env α)
    (plugin_index vertex_count uv_count face_count : Nat) (V U I rest : List Nat)
    (htype : env.geometry_type = geo_plugin_core.GP_GEOMETRY_TYPE_NODE)
    (hfile : env.file =
      some (vertex_count :: uv_count :: (7 * face_count) :: (V ++ U ++ I ++ rest)))
    (hV : V.length = 6 * vertex_count) (hU : U.length = 2 * uv_count)
    (hI : I.length = 7 * face_count)
    (hvc : 0 < vertex_count) (huc : 0 < uv_count) (hF : 0 < face_count)
    (h32 : 7 * face_count < 2 ^ 32)
    (ha1 : env.alloc_vertex_array = true) (ha2 : env.alloc_uv_array = true)
    (ha3 : env.alloc_index_array = true) (ha4 : env.alloc_uv_channels_array = true)
    (ha5 : env.alloc_uv_channels_array_0 = true) (ha6 : env.alloc_uv_indices_array = true)
    (ha7 : env.alloc_uv_indices_array_0 = true) (ha8 : env.alloc_uv_count_array = true)
    (hv0 : env.vector_alloc 0 = true) (hv1 : env.vector_alloc 1 = true) :
    ∃ fs ix,
      (geo_custom.on_process env plugin_index).calls =
        [geo_plugin_core.gp_call.get_geometry_type,
         geo_plugin_core.gp_call.create_node_geometry
           ((List.range vertex_count).map (fun i =>
             { x := env.as_float (V.getD (6 * i) 0),
               y := env.as_float (V.getD (6 * i + 1) 0),
               z := env.as_float (V.getD (6 * i + 2) 0),
               nx := env.as_float (V.getD (6 * i + 3) 0),
               ny := env.as_float (V.getD (6 * i + 4) 0),
               nz := env.as_float (V.getD (6 * i + 5) 0) }))
           vertex_count fs face_count
           { uv_channel_count := 1,
             uv_channels_array := [(List.range uv_count).map (fun i =>
               { u := env.as_float (U.getD (2 * i) 0),
                 v := env.as_float (U.getD (2 * i + 1) 0) })],
             uv_count_array := [uv_count],
             uv_indices_array := [ix] }
           1 false] ++
        (if env.create_node_geometry = true then []
         else [geo_plugin_core.gp_call.log_plugin_error plugin_index
           "Failed to create node geometry with gp_create_node_geometry."]) ∧
      (geo_custom.on_process env plugin_index).bad_alloc = false ∧
      (geo_custom.on_process env plugin_index).is_success = env.create_node_geometry ∧
      fs.length = face_count ∧
      (∀ k, k < face_count → fs[k]? = some
        { a := I.getD (7 * k) 0, b := I.getD (7 * k + 1) 0, c := I.getD (7 * k + 2) 0,
          subset_index := 0, color := geo_plugin_core.gp_node_face_default.color }) ∧
      ix.length = 3 * face_count ∧
      (∀ k j, k < face_count → j < 3 → ix[3 * k + j]? = some (I.getD (7 * k + 3 + j) 0)) := by
  have hne : ¬ (env.geometry_type = geo_plugin_core.GP_GEOMETRY_TYPE_RENDER) := by
    rw [htype]
    decide
  have hdiv : 7 * face_count / 7 = face_count := by omega
  obtain ⟨_, _, hfl, hul, hdone, _, huv⟩ :=
    node_loop_invariant I face_count face_count (le_refl _) (by omega) _ rfl
  rw [geo_on_process_complete env plugin_index vertex_count uv_count (7 * face_count)
    V U I rest hfile hV hU hI (by omega) (by omega) (by omega) ha1 ha2 ha3,
    if_neg hne, if_pos htype]
  unfold geo_custom.on_process_node
  simp only [ha4, ha5, ha6, ha7, ha8, hv0, hv1, Bool.not_true, Bool.false_eq_true, if_false]
  rw [loop_indices_mul, List.foldl_map, hdiv]
  simp only [geo_custom.vertex_at, geo_custom.uv_at]
  refine ⟨_, _, ?_, ?_, ?_, hfl, hdone, hul, huv⟩
  · cases hcr : env.create_node_geometry <;> simp
  · cases hcr : env.create_node_geometry <;> simp
  · cases hcr : env.create_node_geometry <;> simp

/-- C16 (amended) at the one-triangle file: the call trace is the geometry
type query and one `gp_create_render_geometry` call with the three vertices
2, 0, 1 of the file carrying the uvs 1, 2, 0 (second coordinate negated) and
the one face `(0, 1, 2)`; the seventh index 99 occurs nowhere. -/
theorem render_geometry_sent_witness :
    (geo_custom.on_process geo_custom.triangle_env 0).calls =
      [geo_plugin_core.gp_call.get_geometry_type,
       geo_plugin_core.gp_call.create_render_geometry
         [{ x := 30, y := 31, z := 32, nx := 33, ny := 34, nz := 35, u := 50, v := -51 },
          { x := 10, y := 11, z := 12, nx := 13, ny := 14, nz := 15, u := 60, v := -61 },
          { x := 20, y := 21, z := 22, nx := 23, ny := 24, nz := 25, u := 40, v := -41 }]
         3 [{ a := 0, b := 1, c := 2, subset_index := 0 }] 1 1 false 0] ∧
    (geo_custom.on_process geo_custom.triangle_env 0).bad_alloc = false ∧
    (geo_custom.on_process geo_custom.triangle_env 0).is_success = true := by
  obtain ⟨vs, fs, hcalls, hbad, hs, hvl, hfl, hfs, hvs⟩ :=
    render_geometry_sent geo_custom.triangle_env 0 3 3 1 geo_custom.triangle_vertices
      geo_custom.triangle_uvs geo_custom.triangle_indices [] rfl rfl rfl rfl rfl
      (by decide) (by decide)
      (by intro k j hk hj; interval_cases k; interval_cases j <;> decide)
      (by intro k j hk hj; interval_cases k; interval_cases j <;> decide)
      rfl rfl rfl (fun _ _ => rfl)
  have hvs' : vs =
      [{ x := 30, y := 31, z := 32, nx := 33, ny := 34, nz := 35, u := 50, v := -51 },
       { x := 10, y := 11, z := 12, nx := 13, ny := 14, nz := 15, u := 60, v := -61 },
       { x := 20, y := 21, z := 22, nx := 23, ny := 24, nz := 25, u := 40, v := -41 }] := by
    apply List.ext_getElem?
    intro n
    rcases n with _ | _ | _ | n
    · exact hvs 0 0 (by decide) (by decide)
    · exact hvs 0 1 (by decide) (by decide)
    · exact hvs 0 2 (by decide) (by decide)
    · rw [List.getElem?_eq_none (by omega)]
      rfl
  have hfs' : fs = [{ a := 0, b := 1, c := 2, subset_index := 0 }] := by
    apply List.ext_getElem?
    intro n
    rcases n with _ | n
    · exact hfs 0 (by decide)
    · rw [List.getElem?_eq_none (by omega)]
      rfl
  subst hvs' hfs'
  exact ⟨hcalls, hbad, hs⟩

/-- C17 (amended) at the one-triangle file: the call trace is the geometry
type query and one `gp_create_node_geometry` call with the three vertices of
the file in file order, the one face `(2, 0, 1)` with the default colour, and
one UV channel with the three uvs of the file and the uv indices 1, 2, 0. -/
theorem node_geometry_sent_witness :
    (geo_custom.on_process geo_custom.triangle_node_env 0).calls =
      [geo_plugin_core.gp_call.get_geometry_type,
       geo_plugin_core.gp_call.create_node_geometry
         [({ x := 10, y := 11, z := 12, nx := 13, ny := 14, nz := 15 } :
            geo_plugin_core.gp_node_vertex_s Int),
          { x := 20, y := 21, z := 22, nx := 23, ny := 24, nz := 25 },
          { x := 30, y := 31, z := 32, nx := 33, ny := 34, nz := 35 }]
         3 [{ a := 2, b := 0, c := 1, subset_index := 0, color := 12566463 }] 1
         { uv_channel_count := 1,
           uv_channels_array := [[{ u := 40, v := 41 }, { u := 50, v := 51 },
             { u := 60, v := 61 }]],
           uv_count_array := [3],
           uv_indices_array := [[1, 2, 0]] }
         1 false] ∧
    (geo_custom.on_process geo_custom.triangle_node_env 0).bad_alloc = false ∧
    (geo_custom.on_process geo_custom.triangle_node_env 0).is_success = true := by
  obtain ⟨fs, ix, hcalls, hbad, hs, hfl, hfs, hil, hix⟩ :=
    node_geometry_sent geo_custom.triangle_node_env 0 3 3 1 geo_custom.triangle_vertices
      geo_custom.triangle_uvs geo_custom.triangle_indices [] rfl rfl rfl rfl rfl
      (by decide) (by decide) (by decide) (by decide)
      rfl rfl rfl rfl rfl rfl rfl rfl rfl rfl
  have hfs' : fs = [{ a := 2, b := 0, c := 1, subset_index := 0, color := 12566463 }] := by
    apply List.ext_getElem?
    intro n
    rcases n with _ | n
    · exact hfs 0 (by decide)
    · rw [List.getElem?_eq_none (by omega)]
      rfl
  have hix' : ix = [1, 2, 0] := by
    apply List.ext_getElem?
    intro n
    rcases n with _ | _ | _ | n
    · exact hix 0 0 (by decide) (by decide)
    · exact hix 0 1 (by decide) (by decide)
    · exact hix 0 2 (by decide) (by decide)
    · rw [List.getElem?_eq_none (by omega)]
      rfl
  subst hfs' hix'
  exact ⟨hcalls, hbad, hs⟩

/-- C16 (counterexample): two runs for geometry type RENDER in which nothing
is sent.  The complete file with one vertex, one uv and `index_count = 0` (a
multiple of 7, no index out of range) is rejected: the call trace is the
geometry type query and the error log, and the result is FALSE.  The complete
one-triangle file whose index array cannot be allocated ends the same way. -/
theorem render_geometry_not_sent :
    (geo_custom.on_process
      { geo_custom.example_env with file := some [1, 1, 0, 1, 2, 3, 4, 5, 6, 7, 8] } 0).calls =
        [geo_plugin_core.gp_call.get_geometry_type,
         geo_plugin_core.gp_call.log_plugin_error 0 "One of the geometry counts was zero."] ∧
    (geo_custom.on_process
      { geo_custom.example_env with file := some [1, 1, 0, 1, 2, 3, 4, 5, 6, 7, 8] }
        0).is_success = false ∧
    (geo_custom.on_process
      { geo_custom.triangle_env with alloc_index_array := false } 0).calls =
        [geo_plugin_core.gp_call.get_geometry_type,
         geo_plugin_core.gp_call.log_plugin_error 0
           "Memory Allocation Error: Failed to allocate index_array."] ∧
    (geo_custom.on_process
      { geo_custom.triangle_env with alloc_index_array := false } 0).is_success = false := by
  decide

/-- C17 (counterexample): two runs for geometry type NODE in which nothing is
sent.  The complete file with one vertex, one uv and `index_count = 0` (a
multiple of 7, no index out of range) is rejected, so its one vertex and its
one uv are not sent: the call trace is the geometry type query and the error
log, and the result is FALSE.  The complete one-triangle file for which
`uv_count_array` cannot be allocated ends the same way. -/
theorem node_geometry_not_sent :
    (geo_custom.on_process
      { geo_custom.example_env with
        geometry_type := 1, file := some [1, 1, 0, 1, 2, 3, 4, 5, 6, 7, 8] } 0).calls =
        [geo_plugin_core.gp_call.get_geometry_type,
         geo_plugin_core.gp_call.log_plugin_error 0 "One of the geometry counts was zero."] ∧
    (geo_custom.on_process
      { geo_custom.example_env with
        geometry_type := 1, file := some [1, 1, 0, 1, 2, 3, 4, 5, 6, 7, 8] }
        0).is_success = false ∧
    (geo_custom.on_process
      { geo_custom.triangle_node_env with alloc_uv_count_array := false } 0).calls =
        [geo_plugin_core.gp_call.get_geometry_type,
         geo_plugin_core.gp_call.log_plugin_error 0
           "Memory Allocation Error: Faile to allocate node_uv_data.uv_count_array."] ∧
    (geo_custom.on_process
      { geo_custom.triangle_node_env with alloc_uv_count_array := false } 0).is_success
        = false := by
  decide

end ShaderMap
